import Mathlib

/-!
Verification development for the GlitchAgent browser-automation core
(`src/backend/src/services/browser_automation_service.py` and
`src/backend/src/models/glitch_agent.py`).

Text is modelled as `List Char` (`Str`).  Python regular-expression
substitutions are modelled by explicit left-to-right scanners with the same
leftmost, non-overlapping semantics as `re.sub` / `re.findall`: a match is
removed (or collected) and scanning resumes after the removed region of the
original string, so text newly formed by the concatenation is not rescanned
within the same pass.  Effectful Playwright and LLM calls are modelled by
explicit environment records supplying each primitive call outcome.
-/

namespace GlitchAgent

/-- Text is a list of characters, as Python `str` is a sequence of characters. -/
abbrev Str := List Char

/-- Python regex `\s` on the ASCII range (space, tab, newline, CR, VT, FF). -/
def isSpaceChar (c : Char) : Bool :=
  c = ' ' || c = '\t' || c = '\n' || c = '\r' || c = '\x0b' || c = '\x0c'

/-- Python regex word character `\w` on the ASCII range: `[A-Za-z0-9_]`. -/
def isWordChar (c : Char) : Bool :=
  (c ≥ 'a' && c ≤ 'z') || (c ≥ 'A' && c ≤ 'Z') || (c ≥ '0' && c ≤ '9') || c = '_'

/-- Character class `[a-zA-Z0-9_-]` of the `data-*` attribute-name regex. -/
def isNameChar (c : Char) : Bool := isWordChar c || c = '-'

/-- The single-quote character, kept out of string literals. -/
def squote : Char := '\x27'

/-- The opening-brace character. -/
def obrace : Char := '\x7b'

/-- The closing-brace character. -/
def cbrace : Char := '\x7d'

/-- Whether `pat` occurs as a contiguous substring of `s` (Python `pat in s`). -/
def containsSub (pat : Str) : Str → Bool
  | [] => pat.isEmpty
  | c :: rest => pat.isPrefixOf (c :: rest) || containsSub pat rest

/-- Python `s.startswith(pat)`. -/
def startsWith (pat s : Str) : Bool := pat.isPrefixOf s

/-- Python `s.lower()` on the ASCII range. -/
def toLowerStr (s : Str) : Str := s.map Char.toLower

/-- Python `s.strip()` (strip leading and trailing whitespace). -/
def stripWs (s : Str) : Str :=
  ((s.dropWhile isSpaceChar).reverse.dropWhile isSpaceChar).reverse

/-- Python `s.strip(chars)` for an explicit character set. -/
def stripChars (set : List Char) (s : Str) : Str :=
  ((s.dropWhile (set.contains ·)).reverse.dropWhile (set.contains ·)).reverse

/-- Drop characters up to and including the first occurrence of `t`
(the regex fragment `[^t]*t`); `none` when `t` does not occur. -/
def dropPastChar (t : Char) : Str → Option Str
  | [] => none
  | c :: rest => if c = t then some rest else dropPastChar t rest

/-- Split at the first occurrence of `t`: characters strictly before it and
the suffix strictly after it; `none` when `t` does not occur. -/
def splitAtChar (t : Char) : Str → Option (Str × Str)
  | [] => none
  | c :: rest =>
    if c = t then some ([], rest)
    else (splitAtChar t rest).map (fun p => (c :: p.1, p.2))

/-- Find the first occurrence of `close`; return the consumed text (everything
up to and including `close`) and the suffix after it. -/
def splitSub (close : Str) : Str → Option (Str × Str)
  | [] => none
  | c :: rest =>
    if close.isPrefixOf (c :: rest) then
      some (close, (c :: rest).drop close.length)
    else
      match splitSub close rest with
      | some (pre, suf) => some (c :: pre, suf)
      | none => none

/-- Find the first occurrence of `pat` that begins before any occurrence of the
character `stop`; return the suffix after the occurrence (which may run past
`stop`). -/
def findSubBeforeChar (pat : Str) (stop : Char) : Str → Option Str
  | [] => none
  | c :: rest =>
    if pat.isPrefixOf (c :: rest) then some ((c :: rest).drop pat.length)
    else if c = stop then none
    else findSubBeforeChar pat stop rest

/-!
## Regex-substitution scanners

`scanRemove matchAt` models `re.sub(pattern, "", s)` for a pattern whose match
attempt at a position is decided by `matchAt` (returning the suffix after the
match).  `scanCollect` models `re.findall` for the same kind of pattern.
Both take fuel; every successful match consumes at least one character, so
fuel `s.length` is always sufficient, and fuel 0 returns the input unchanged
(respectively no further matches).
-/

/-- One `re.sub(pattern, "", ·)` pass: leftmost non-overlapping matches are
deleted and scanning resumes after each match. -/
def scanRemove (matchAt : Str → Option Str) : Nat → Str → Str
  | 0, s => s
  | _ + 1, [] => []
  | fuel + 1, c :: rest =>
    match matchAt (c :: rest) with
    | some suffix => scanRemove matchAt fuel suffix
    | none => c :: scanRemove matchAt fuel rest

/-- One `re.findall(pattern, ·)` pass collecting the matched texts. -/
def scanCollect (matchAt : Str → Option (Str × Str)) : Nat → Str → List Str
  | 0, _ => []
  | _ + 1, [] => []
  | fuel + 1, c :: rest =>
    match matchAt (c :: rest) with
    | some (m, suffix) => m :: scanCollect matchAt fuel suffix
    | none => scanCollect matchAt fuel rest

/-!
## The individual match functions (browser_automation_service.py lines 240-268)
-/

/-- Boundary test for `<tag\b`: the character after the tag name is not a word
character (end of string also counts as a boundary). -/
def tagBoundaryOk (tag : Str) (s : Str) : Bool :=
  match s.drop (1 + tag.length) with
  | [] => true
  | c :: _ => !isWordChar c

/-- Match of `<tag\b[^<]*(?:(?!</tag>)<[^<]*)*</tag>` at the start of `s`:
the opening `<tag` with a word boundary, up to and including the first
subsequent `</tag>`.  Returns the matched text and the suffix after it. -/
def tagBlockMatch (tag : Str) (s : Str) : Option (Str × Str) :=
  if ('<' :: tag).isPrefixOf s && tagBoundaryOk tag s then
    match splitSub ('<' :: '/' :: tag ++ ['>']) (s.drop (1 + tag.length)) with
    | some (mid, suffix) => some ('<' :: tag ++ mid, suffix)
    | none => none
  else none

/-- Match of `<!--.*?-->` at the start of `s` (DOTALL, non-greedy): from
`<!--` to the first subsequent `-->`. -/
def commentMatch (s : Str) : Option Str :=
  if ("<!--".toList).isPrefixOf s then
    match splitSub ("-->".toList) (s.drop 4) with
    | some (_, suffix) => some suffix
    | none => none
  else none

/-- Match of `<tag\b[^>]*>` at the start of `s` (used for `meta` and `link`):
the opening `<tag` with a word boundary, up to and including the first
subsequent `>`. -/
def simpleTagMatch (tag : Str) (s : Str) : Option Str :=
  if ('<' :: tag).isPrefixOf s && tagBoundaryOk tag s then
    dropPastChar '>' (s.drop (1 + tag.length))
  else none

/-- Match of `\s+data-[a-zA-Z0-9_-]+="[^"]*"` at the start of `s`: a
whitespace run, `data-`, a nonempty attribute name, `="`, then everything up
to the closing double quote. -/
def dataAttrMatch : Str → Option Str
  | [] => none
  | c :: s0 =>
    if isSpaceChar c then
      let r := (c :: s0).dropWhile isSpaceChar
      if ("data-".toList).isPrefixOf r then
        let r2 := r.drop 5
        if (r2.takeWhile isNameChar).isEmpty then none
        else
          match r2.dropWhile isNameChar with
          | c3 :: c4 :: r4 =>
            if c3 = '=' ∧ c4 = '"' then dropPastChar '"' r4 else none
          | _ => none
      else none
    else none

/-- Match of the trailing `.*?</[^>]*>` (DOTALL, non-greedy): scan for the
first `</` that is completed by a later `>`; the suffix after that `>`. -/
def closeAnyMatch : Str → Option Str
  | [] => none
  | c :: rest =>
    if c = '<' then
      match rest with
      | [] => none
      | d :: r => if d = '/' then dropPastChar '>' r else closeAnyMatch rest
    else closeAnyMatch rest

/-- Match of `<[^>]*hidden[^>]*>.*?</[^>]*>` at the start of `s`: a tag whose
text before the first `>` contains `hidden`, then minimal content up to the
first closing-tag shape. -/
def hiddenMatch (s : Str) : Option Str :=
  match s with
  | [] => none
  | c :: rest =>
    if c = '<' then
      match splitAtChar '>' rest with
      | some (inside, after) =>
        if containsSub ("hidden".toList) inside then closeAnyMatch after
        else none
      | none => none
    else none

/-- Match of `<[^>]*style="[^"]*display:\s*none[^"]*"[^>]*>.*?</[^>]*>` at the
start of `s`.  The scan takes the leftmost `style="` occurring before the
first `>`, then the leftmost `display:` before the next `"`; Python greedy
backtracking would prefer the rightmost candidates, which differs only when a
tag repeats the `style` attribute or the quoted value repeats `display:`. -/
def displayNoneMatch (s : Str) : Option Str :=
  match s with
  | [] => none
  | c :: rest =>
    if c = '<' then
      match findSubBeforeChar ("style=\"".toList) '>' rest with
      | none => none
      | some q =>
        match findSubBeforeChar ("display:".toList) '"' q with
        | none => none
        | some d =>
          let d2 := d.dropWhile isSpaceChar
          if ("none".toList).isPrefixOf d2 then
            match dropPastChar '"' (d2.drop 4) with
            | none => none
            | some afterQ =>
              match dropPastChar '>' afterQ with
              | none => none
              | some afterGt => closeAnyMatch afterGt
          else none
    else none

/-!
## Whitespace collapsing (`re.sub(r"\s{2,}", " ", ·)`)

Each maximal whitespace run of length at least two becomes a single space; a
lone whitespace character is kept unchanged.  Implemented with a one-character
pending buffer so the recursion is structural.
-/

/-- Flush the pending whitespace buffer: a lone whitespace character is kept,
a run of two or more becomes one space. -/
def flushWs : Option (Char × Bool) → Str
  | none => []
  | some (c, false) => [c]
  | some (_, true) => [' ']

/-- Worker for whitespace collapsing; `pend` records the first character of
the current whitespace run and whether the run has length at least two. -/
def goWs : Option (Char × Bool) → Str → Str
  | pend, [] => flushWs pend
  | pend, c :: rest =>
    if isSpaceChar c then
      match pend with
      | none => goWs (some (c, false)) rest
      | some (d, _) => goWs (some (d, true)) rest
    else flushWs pend ++ c :: goWs none rest

/-- Step 9 of the cleaning pipeline (line 265): collapse whitespace runs. -/
def collapse_whitespace (s : Str) : Str := goWs none s

/-!
## The cleaning pipeline (lines 240-268), in source order
-/

def remove_script_tags (s : Str) : Str :=
  scanRemove (fun t => (tagBlockMatch ("script".toList) t).map Prod.snd) s.length s

def remove_style_tags (s : Str) : Str :=
  scanRemove (fun t => (tagBlockMatch ("style".toList) t).map Prod.snd) s.length s

def remove_comment_tags (s : Str) : Str :=
  scanRemove commentMatch s.length s

def remove_meta_tags (s : Str) : Str :=
  scanRemove (simpleTagMatch ("meta".toList)) s.length s

def remove_link_tags (s : Str) : Str :=
  scanRemove (simpleTagMatch ("link".toList)) s.length s

def remove_svg_tags (s : Str) : Str :=
  scanRemove (fun t => (tagBlockMatch ("svg".toList) t).map Prod.snd) s.length s

def remove_data_attributes (s : Str) : Str :=
  scanRemove dataAttrMatch s.length s

def remove_hidden_elements (s : Str) : Str :=
  scanRemove hiddenMatch s.length s

def remove_display_none_elements (s : Str) : Str :=
  scanRemove displayNoneMatch s.length s

def remove_footer_tags (s : Str) : Str :=
  scanRemove (fun t => (tagBlockMatch ("footer".toList) t).map Prod.snd) s.length s

/-- The HTML cleaning of `_create_html_based_action_prompt` (lines 240-268),
applied in source order; note the footer removal (step 10, line 268) runs
after the whitespace collapse (step 9, line 265). -/
def clean_html_content (s : Str) : Str :=
  remove_footer_tags
    (collapse_whitespace
      (remove_display_none_elements
        (remove_hidden_elements
          (remove_data_attributes
            (remove_svg_tags
              (remove_link_tags
                (remove_meta_tags
                  (remove_comment_tags
                    (remove_style_tags
                      (remove_script_tags s))))))))))

/-!
## Length capping (lines 275-309) and brace escaping (line 312)
-/

/-- The fixed cap of the sanitized content (line 276). -/
def max_html_length : Nat := 15000

/-- The truncation marker appended on hard truncation (line 308). -/
def truncation_marker : Str := "... [truncated]".toList

/-- `re.findall` of the form/main/article block pattern (lines 284-296). -/
def findTagBlocks (tag : Str) (s : Str) : List Str :=
  scanCollect (tagBlockMatch tag) s.length s

/-- The extracted important parts (lines 281-299): all forms, then the main
sections, then the article sections, in that order. -/
def important_parts (s : Str) : List Str :=
  findTagBlocks ("form".toList) s ++ findTagBlocks ("main".toList) s
    ++ findTagBlocks ("article".toList) s

/-- The capping logic of lines 275-309 applied to the cleaned content: under
the cap the content passes through; over the cap the important parts replace
it when any exist; whatever remains over the cap is hard-truncated with the
marker appended. -/
def truncate_html_content (s : Str) : Str :=
  if s.length > max_html_length then
    let parts := important_parts s
    let s2 := if parts = [] then s else parts.flatten
    if s2.length > max_html_length then
      s2.take max_html_length ++ truncation_marker
    else s2
  else s

/-- Line 312: every brace is doubled before embedding in the prompt text. -/
def escape_braces (s : Str) : Str :=
  s.flatMap (fun c => if c = obrace || c = cbrace then [c, c] else [c])

/-- The page-content string embedded in the action-extraction prompt
(`_create_html_based_action_prompt`): cleaned, capped, brace-escaped. -/
def prompt_html_content (s : Str) : Str :=
  escape_braces (truncate_html_content (clean_html_content s))

/-!
## JSON (`json.loads`)

A strict JSON value parser modelling Python `json.loads` on text: values are
null, booleans, numbers (plus the `NaN`/`Infinity`/`-Infinity` constants that
the Python decoder accepts by default), strings with the standard escapes,
arrays and objects; trailing commas are rejected and raw control characters
inside strings are rejected.  Numbers keep their lexeme.  Recursion-depth
limits of the CPython scanner are outside the model.
-/

inductive Json where
  | null
  | jbool (b : Bool)
  | num (lexeme : Str)
  | str (s : Str)
  | arr (elements : List Json)
  | obj (members : List (Str × Json))

/-- JSON insignificant whitespace: space, tab, newline, carriage return. -/
def skipJsonWs (s : Str) : Str :=
  s.dropWhile (fun c => c = ' ' || c = '\t' || c = '\n' || c = '\r')

/-- Value of a hexadecimal digit. -/
def hexVal (c : Char) : Option Nat :=
  if '0' ≤ c && c ≤ '9' then some (c.toNat - 48)
  else if 'a' ≤ c && c ≤ 'f' then some (c.toNat - 87)
  else if 'A' ≤ c && c ≤ 'F' then some (c.toNat - 55)
  else none

/-- The single-character JSON string escapes. -/
def escMap (e : Char) : Option Char :=
  if e = '"' then some '"'
  else if e = '\\' then some '\\'
  else if e = '/' then some '/'
  else if e = 'b' then some '\x08'
  else if e = 'f' then some '\x0c'
  else if e = 'n' then some '\n'
  else if e = 'r' then some '\r'
  else if e = 't' then some '\t'
  else none

/-- Parse a JSON string body after the opening quote; returns the decoded
characters and the suffix after the closing quote.  Surrogate-pair combining
of `\u` escapes is not modelled (each escape decodes on its own). -/
def parseJString : Str → Option (Str × Str)
  | [] => none
  | c :: rest =>
    if c = '"' then some ([], rest)
    else if c = '\\' then
      match rest with
      | [] => none
      | e :: r2 =>
        if e = 'u' then
          match r2 with
          | h1 :: h2 :: h3 :: h4 :: r3 =>
            match hexVal h1, hexVal h2, hexVal h3, hexVal h4 with
            | some a, some b, some c2, some d =>
              (parseJString r3).map
                (fun p => (Char.ofNat (((a * 16 + b) * 16 + c2) * 16 + d) :: p.1, p.2))
            | _, _, _, _ => none
          | _ => none
        else
          match escMap e with
          | some ch => (parseJString r2).map (fun p => (ch :: p.1, p.2))
          | none => none
    else if c.toNat < 32 then none
    else (parseJString rest).map (fun p => (c :: p.1, p.2))

/-- Digits of a decimal literal to a natural number. -/
def digitsToNat (s : Str) : Nat :=
  s.foldl (fun n c => n * 10 + (c.toNat - 48)) 0

/-- Parse a JSON number lexeme `-?(0|[1-9][0-9]*)(\.[0-9]+)?([eE][-+]?[0-9]+)?`
at the start of `s`; returns the lexeme and the suffix. -/
def parseNumber (s : Str) : Option (Str × Str) :=
  let signed := match s with
    | '-' :: r => (['-'], r)
    | _ => (([] : Str), s)
  let ip := signed.2.takeWhile Char.isDigit
  let r1 := signed.2.dropWhile Char.isDigit
  if ip.isEmpty then none
  else if ip.length > 1 && ip.headD 'x' = '0' then none
  else
    let withFrac : Str × Str :=
      match r1 with
      | '.' :: fr =>
        let ds := fr.takeWhile Char.isDigit
        if ds.isEmpty then ([], r1) else ('.' :: ds, fr.dropWhile Char.isDigit)
      | _ => ([], r1)
    let withExp : Str × Str :=
      match withFrac.2 with
      | e :: tail =>
        if e = 'e' || e = 'E' then
          let tail2 := match tail with
            | sg :: t2 => if sg = '+' || sg = '-' then ([sg], t2) else (([] : Str), tail)
            | [] => ([], tail)
          let ds := tail2.2.takeWhile Char.isDigit
          if ds.isEmpty then ([], withFrac.2)
          else (e :: tail2.1 ++ ds, tail2.2.dropWhile Char.isDigit)
        else ([], withFrac.2)
      | [] => ([], withFrac.2)
    some (signed.1 ++ ip ++ withFrac.1 ++ withExp.1, withExp.2)

/-- Mode of the fueled JSON parser: a value, the elements of an array after
the opening bracket, or the members of an object after the opening brace. -/
inductive PMode where
  | value
  | arrElems (acc : List Json)
  | objMembers (acc : List (Str × Json))

/-- Fueled recursive-descent JSON parser; returns the value and the suffix. -/
def parseCore : Nat → PMode → Str → Option (Json × Str)
  | 0, _, _ => none
  | fuel + 1, PMode.value, s =>
    let s1 := skipJsonWs s
    match s1 with
    | [] => none
    | c :: rest =>
      if c = obrace then
        match skipJsonWs rest with
        | c2 :: r2 => if c2 = cbrace then some (Json.obj [], r2)
                      else parseCore fuel (PMode.objMembers []) (skipJsonWs rest)
        | [] => none
      else if c = '[' then
        match skipJsonWs rest with
        | c2 :: r2 => if c2 = ']' then some (Json.arr [], r2)
                      else parseCore fuel (PMode.arrElems []) (skipJsonWs rest)
        | [] => none
      else if c = '"' then
        (parseJString rest).map (fun p => (Json.str p.1, p.2))
      else if ("true".toList).isPrefixOf s1 then some (Json.jbool true, s1.drop 4)
      else if ("false".toList).isPrefixOf s1 then some (Json.jbool false, s1.drop 5)
      else if ("null".toList).isPrefixOf s1 then some (Json.null, s1.drop 4)
      else if ("NaN".toList).isPrefixOf s1 then some (Json.num ("NaN".toList), s1.drop 3)
      else if ("Infinity".toList).isPrefixOf s1 then
        some (Json.num ("Infinity".toList), s1.drop 8)
      else if ("-Infinity".toList).isPrefixOf s1 then
        some (Json.num ("-Infinity".toList), s1.drop 9)
      else (parseNumber s1).map (fun p => (Json.num p.1, p.2))
  | fuel + 1, PMode.arrElems acc, s =>
    match parseCore fuel PMode.value s with
    | none => none
    | some (v, r) =>
      match skipJsonWs r with
      | ',' :: r2 => parseCore fuel (PMode.arrElems (acc ++ [v])) r2
      | ']' :: r2 => some (Json.arr (acc ++ [v]), r2)
      | _ => none
  | fuel + 1, PMode.objMembers acc, s =>
    match skipJsonWs s with
    | '"' :: r =>
      match parseJString r with
      | none => none
      | some (k, r1) =>
        match skipJsonWs r1 with
        | ':' :: r2 =>
          match parseCore fuel PMode.value r2 with
          | none => none
          | some (v, r3) =>
            match skipJsonWs r3 with
            | ',' :: r4 => parseCore fuel (PMode.objMembers (acc ++ [(k, v)])) r4
            | c :: r4 => if c = cbrace then some (Json.obj (acc ++ [(k, v)]), r4) else none
            | [] => none
        | _ => none
    | _ => none

/-- `json.loads`: parse one value and require only whitespace after it. -/
def json_loads (s : Str) : Option Json :=
  match parseCore (2 * s.length + 4) PMode.value s with
  | some (v, rest) => if (skipJsonWs rest).isEmpty then some v else none
  | none => none

/-!
## Lenient response extraction (`_parse_llm_response`, lines 538-566)
-/

/-- A fenced-code-block delimiter. -/
def fence : Str := "```".toList

/-- Suffix after the first occurrence of `pat`. -/
def afterFirstSub (pat : Str) : Str → Option Str
  | [] => none
  | c :: rest =>
    if pat.isPrefixOf (c :: rest) then some ((c :: rest).drop pat.length)
    else afterFirstSub pat rest

/-- Content strictly before the first occurrence of `pat`. -/
def beforeFirstSub (pat : Str) : Str → Option Str
  | [] => none
  | c :: rest =>
    if pat.isPrefixOf (c :: rest) then some []
    else (beforeFirstSub pat rest).map (c :: ·)

/-- The fenced-block group of the regex at line 548: the text between the
first code fence (after an optional `json` tag) and the next fence.  The
whitespace trimming that the surrounding `\s*` of the regex performs is
subsumed by the `strip()` at line 561 before `json.loads` is called. -/
def extract_fenced_block (s : Str) : Option Str :=
  match afterFirstSub fence s with
  | none => none
  | some t =>
    let t1 := if ("json".toList).isPrefixOf t then t.drop 4 else t
    beforeFirstSub fence t1

/-- The bracket-delimited group of the regex at line 553 (`(\[.*\])` with
DOTALL): from the first opening bracket to the last closing bracket. -/
def extract_bracketed (s : Str) : Option Str :=
  match s.dropWhile (· ≠ '[') with
  | [] => none
  | _ :: t =>
    let t2 := t.reverse.dropWhile (· ≠ ']')
    if t2.isEmpty then none else some ('[' :: t2.reverse)

/-- `_parse_llm_response` (lines 538-566): take the fenced block, else the
bracket-delimited text, else the whole response; strip it and parse it as
JSON; on a parse failure return the empty list.  No exception escapes. -/
def parse_llm_response (response : Str) : Json :=
  let json_str :=
    match extract_fenced_block response with
    | some s => s
    | none =>
      match extract_bracketed response with
      | some s => s
      | none => response
  match json_loads (stripWs json_str) with
  | some v => v
  | none => Json.arr []

/-!
## Data model (`src/backend/src/models/glitch_agent.py`)
-/

/-- `ActionType` (glitch_agent.py lines 7-18). -/
inductive ActionType where
  | navigate | click | fill | wait | submit | press | select | hover | screenshot | extract
  deriving DecidableEq

/-- The enum lookup `ActionType(value)` on a string value; any other or
unknown value raises `ValueError` at the call sites. -/
def actionTypeOfStr (s : Str) : Option ActionType :=
  if s = "navigate".toList then some ActionType.navigate
  else if s = "click".toList then some ActionType.click
  else if s = "fill".toList then some ActionType.fill
  else if s = "wait".toList then some ActionType.wait
  else if s = "submit".toList then some ActionType.submit
  else if s = "press".toList then some ActionType.press
  else if s = "select".toList then some ActionType.select
  else if s = "hover".toList then some ActionType.hover
  else if s = "screenshot".toList then some ActionType.screenshot
  else if s = "extract".toList then some ActionType.extract
  else none

/-- `ActionType(value)` on a parsed JSON value: only matching strings
succeed; numbers, booleans, null and containers raise `ValueError`. -/
def parseActionTypeJson : Json → Option ActionType
  | Json.str s => actionTypeOfStr s
  | _ => none

/-- `BrowserAction` (glitch_agent.py lines 21-29). -/
structure BrowserAction where
  action : ActionType
  locator : Option Str := none
  url : Option Str := none
  text : Option Str := none
  time_ms : Option Int := none
  key : Option Str := none
  value : Option Str := none
  deriving DecidableEq

/-- `CommandResponse` (glitch_agent.py lines 48-54); the timestamp is an
abstract clock value. -/
structure CommandResponse where
  request_id : Str
  actions : List BrowserAction
  status : Str
  message : Str
  created_at : Nat
  deriving DecidableEq

/-- `ExecutionResult` (glitch_agent.py lines 62-70); the screenshot field is
modelled by its presence and the timestamp is an abstract clock value. -/
structure ExecutionResult where
  request_id : Str
  success : Bool
  message : Str
  screenshot : Bool
  extracted_data : Option Unit
  error : Option Str
  completed_at : Nat
  deriving DecidableEq

/-- Python `dict.get` on a parsed JSON object: the last binding of a
duplicated key wins, as in the dict `json.loads` builds. -/
def jsonGet (members : List (Str × Json)) (k : Str) : Option Json :=
  match members with
  | [] => none
  | (k2, v) :: rest =>
    match jsonGet rest k with
    | some v2 => some v2
    | none => if k2 = k then some v else none

/-- pydantic v1 validation of an `Optional[str]` field value: strings pass,
null becomes None, numbers and booleans are coerced with `str()` (the number
coercion reproduces the lexeme, except where Python float printing would
normalize it, a corner not exercised here), containers fail validation. -/
def jsonAsOptStr : Json → Option (Option Str)
  | Json.null => some none
  | Json.str s => some (some s)
  | Json.num lx => some (some lx)
  | Json.jbool b => some (some (if b then "True".toList else "False".toList))
  | _ => none

/-- Python `int(s)` on a stripped string: an optional sign and digits. -/
def parseIntStr (s : Str) : Option Int :=
  let t := stripWs s
  match t with
  | '-' :: r =>
    if !r.isEmpty && r.all Char.isDigit then some (-(digitsToNat r : Int)) else none
  | '+' :: r =>
    if !r.isEmpty && r.all Char.isDigit then some (digitsToNat r : Int) else none
  | _ =>
    if !t.isEmpty && t.all Char.isDigit then some (digitsToNat t : Int) else none

/-- Python `int(float)` truncation of a number lexeme toward zero (exponent
lexemes are a corner not exercised here); `NaN`/`Infinity` raise. -/
def truncNumLexeme (lx : Str) : Option Int :=
  match lx with
  | '-' :: r =>
    let ds := r.takeWhile Char.isDigit
    if ds.isEmpty then none else some (-(digitsToNat ds : Int))
  | _ =>
    let ds := lx.takeWhile Char.isDigit
    if ds.isEmpty then none else some (digitsToNat ds : Int)

/-- pydantic v1 validation of an `Optional[int]` field value. -/
def jsonAsOptInt : Json → Option (Option Int)
  | Json.null => some none
  | Json.num lx => (truncNumLexeme lx).map some
  | Json.jbool b => some (some (if b then 1 else 0))
  | Json.str s => (parseIntStr s).map some
  | _ => none

/-- Field read `action_data.get(k)` followed by `Optional[str]` validation. -/
def fieldOptStr (kvs : List (Str × Json)) (k : Str) : Option (Option Str) :=
  match jsonGet kvs k with
  | none => some none
  | some v => jsonAsOptStr v

/-- Field read `action_data.get(k)` followed by `Optional[int]` validation. -/
def fieldOptInt (kvs : List (Str × Json)) (k : Str) : Option (Option Int) :=
  match jsonGet kvs k with
  | none => some none
  | some v => jsonAsOptInt v

/-!
## Command Translator (`translate_command`, lines 416-536)
-/

/-- Loop body of lines 493-515 for one parsed entry: look up the action type
(`ValueError` on an unknown one skips the entry, line 514), drop Navigate
entries (lines 499-500), build the `BrowserAction` (a validation failure
skips the entry); `none` means the entry contributes no action. -/
def entryAction (kvs : List (Str × Json)) : Option BrowserAction :=
  match parseActionTypeJson ((jsonGet kvs ("action".toList)).getD (Json.str [])) with
  | none => none
  | some t =>
    if t = ActionType.navigate then none
    else
      match fieldOptStr kvs ("locator".toList), fieldOptStr kvs ("url".toList),
          fieldOptStr kvs ("text".toList), fieldOptInt kvs ("time_ms".toList),
          fieldOptStr kvs ("key".toList), fieldOptStr kvs ("value".toList) with
      | some l, some u, some tx, some tm, some ky, some vl =>
        some ⟨t, l, u, tx, tm, ky, vl⟩
      | _, _, _, _, _, _ => none

/-- The conversion loop of lines 487-515 over the parsed entries.  A non-dict
entry raises `AttributeError` at `.get`, which is not caught by the
`(ValueError, KeyError)` handler and escapes the loop: the whole run returns
`none` and `translate_command` answers with its error response. -/
def buildActions : List Json → Option (List BrowserAction)
  | [] => some []
  | Json.obj kvs :: rest =>
    match buildActions rest with
    | none => none
    | some acts =>
      match entryAction kvs with
      | some a => some (a :: acts)
      | none => some acts
  | _ :: _ => none

/-- Environment of one `translate_command` run: the two oracle responses and
the page-level call outcomes.  The request id (a fresh uuid4 at line 426) and
the clock are inputs of the model; the action-extraction prompt built at
lines 471-475 only feeds the oracle, whose answer is `html_response`. -/
structure TranslateEnv where
  url_response : Str
  navigation_success : Bool
  html_content : Str
  html_response : Str

/-- URL cleanup of lines 441-445: strip whitespace, strip quote characters,
strip again, and prepend `https://` unless the result starts with `http`. -/
def clean_extracted_url (raw : Str) : Str :=
  let u := stripWs (stripChars ['"', squote, '\x60'] (stripWs raw))
  if startsWith ("http".toList) u then u else "https://".toList ++ u

/-- The error response of lines 530-536. -/
def errorResponse (request_id : Str) (msg : Str) (now : Nat) : CommandResponse :=
  ⟨request_id, [], "error".toList, "Error during translation: ".toList ++ msg, now⟩

/-- The success response of lines 518-524. -/
def readyResponse (request_id : Str) (acts : List BrowserAction) (now : Nat) :
    CommandResponse :=
  ⟨request_id, acts, "ready".toList,
    "Command translated successfully with HTML-based actions".toList, now⟩

/-- `translate_command` (lines 416-536).  A failed navigation and the two
page-content sentinels raise `ValueError` into the outer handler; a parsed
response that is not a list either iterates without entries (empty dict,
empty string) or raises on its first element (`TypeError` for non-iterables,
`AttributeError` for string elements), landing in the outer handler. -/
def translate_command (env : TranslateEnv) (request_id : Str) (now : Nat) :
    CommandResponse :=
  let url := clean_extracted_url env.url_response
  if !env.navigation_success then
    errorResponse request_id ("Failed to navigate to ".toList ++ url) now
  else if env.html_content = "No active page".toList
      || startsWith ("Error getting HTML".toList) env.html_content then
    errorResponse request_id ("Failed to get HTML content".toList) now
  else
    match parse_llm_response env.html_response with
    | Json.arr entries =>
      match buildActions entries with
      | some acts => readyResponse request_id acts now
      | none => errorResponse request_id ("AttributeError: get".toList) now
    | Json.obj [] => readyResponse request_id [] now
    | Json.str [] => readyResponse request_id [] now
    | _ => errorResponse request_id ("TypeError: not iterable".toList) now

/-!
## Troubleshoot merge (`troubleshoot_action`, lines 638-665)

When the parsed troubleshooting response is a JSON object, a replacement
action is built field by field with `dict.get(key, original_field)`.  Any
`ValueError`/`KeyError` while building it (unknown action name, field
validation failure) returns the original action unchanged, as does an empty
parsed object (line 640).
-/

/-- Lookup `fixed_action_data.get("action", action.action)` followed by the
`ActionType(...)` call of line 647: an absent key keeps the original member,
a matching string maps to its member, anything else raises `ValueError`. -/
def repairActionType (fixed : List (Str × Json)) (orig : ActionType) : Option ActionType :=
  match jsonGet fixed ("action".toList) with
  | none => some orig
  | some v => parseActionTypeJson v

/-- Field merge `fixed_action_data.get(k, orig_field)` with `Optional[str]`
validation (lines 652-657). -/
def repairFieldStr (fixed : List (Str × Json)) (k : Str) (orig : Option Str) :
    Option (Option Str) :=
  match jsonGet fixed k with
  | none => some orig
  | some v => jsonAsOptStr v

/-- Field merge `fixed_action_data.get("time_ms", orig.time_ms)` with
`Optional[int]` validation (line 655). -/
def repairFieldInt (fixed : List (Str × Json)) (k : Str) (orig : Option Int) :
    Option (Option Int) :=
  match jsonGet fixed k with
  | none => some orig
  | some v => jsonAsOptInt v

/-- The replacement-action construction of lines 640-665: an empty parsed
object and any construction failure return the original action. -/
def troubleshoot_merge (fixed : List (Str × Json)) (orig : BrowserAction) :
    BrowserAction :=
  if fixed.isEmpty then orig
  else
    match repairActionType fixed orig.action,
        repairFieldStr fixed ("locator".toList) orig.locator,
        repairFieldStr fixed ("url".toList) orig.url,
        repairFieldStr fixed ("text".toList) orig.text,
        repairFieldInt fixed ("time_ms".toList) orig.time_ms,
        repairFieldStr fixed ("key".toList) orig.key,
        repairFieldStr fixed ("value".toList) orig.value with
    | some t, some l, some u, some tx, some tm, some ky, some vl =>
      ⟨t, l, u, tx, tm, ky, vl⟩
    | _, _, _, _, _, _, _ => orig

/-!
## Action Executor (`execute_actions`, lines 702-878)

The world of one attempt supplies the outcome of the underlying page
operation and the result of the connectivity probe run after a failure
(lines 819-826).  Outcomes of the attempt on action index `i` during loop
iteration `r` are drawn from `w i r`; the loop counter `retries` equals the
iteration number, since every failed iteration increments it exactly once.
The oracle-assisted replacement produced by `troubleshoot_action` for action
`i` at counter value `r` is `repair i r`.
-/

/-- Python truthiness of an optional string (`not x` is true for both `None`
and the empty string). -/
def optStrFalsy : Option Str → Bool
  | none => true
  | some [] => true
  | some (_ :: _) => false

/-- Outcome of one loop iteration drawn from the world: the result of the
page operation in the try body (lines 744-812), the result of the
connectivity probe run after a failure (lines 819-826), and the result of
the session restart performed on a disconnected probe (lines 831-832) —
a restart failure raises out of the loop into the outer handler. -/
structure WorldStep where
  opFails : Option Str
  probeConnected : Bool
  restartFails : Option Str

/-- Result of one attempt of the loop body (lines 744-812): success (with
whether a screenshot was stored by a Screenshot action), or an exception
message together with the connectivity probe result. -/
inductive StepResult where
  | success (tookScreenshot : Bool)
  | failure (msg : Str) (connected : Bool)
  deriving DecidableEq

/-- One attempt of the dispatch at lines 750-812: the deterministic
parameter checks raise their `ValueError` first; otherwise the page
operation runs with the outcome the world supplies.  Wait and Extract never
fail (Extract is the no-op placeholder of lines 810-812), and neither does
a Click with a usable locator: its dispatch calls `_handle_click`, which
catches every exception and returns normally (the control-flow slip of
lines 999-1016), so the program has no failure path there.  `_handle_fill`
does keep a failure path (its final fallback at line 1088 is unwrapped),
as do the direct Playwright calls of the other action types.  The
defensive re-start at lines 746-748 sits inside the same try body and is
unreachable while the session invariant holds; any exception it could
raise is part of `opFails`. -/
def attemptAction (a : BrowserAction) (w : WorldStep) : StepResult :=
  match a.action with
  | ActionType.navigate =>
    if optStrFalsy a.url then
      StepResult.failure ("URL is required for navigate action".toList) w.probeConnected
    else match w.opFails with
      | some m => StepResult.failure m w.probeConnected
      | none => StepResult.success false
  | ActionType.click =>
    if optStrFalsy a.locator then
      StepResult.failure ("Locator is required for click action".toList) w.probeConnected
    else StepResult.success false
  | ActionType.fill =>
    if optStrFalsy a.locator || a.text = none then
      StepResult.failure ("Locator and text are required for fill action".toList)
        w.probeConnected
    else match w.opFails with
      | some m => StepResult.failure m w.probeConnected
      | none => StepResult.success false
  | ActionType.wait => StepResult.success false
  | ActionType.submit =>
    if optStrFalsy a.locator then
      StepResult.failure ("Locator is required for submit action".toList) w.probeConnected
    else match w.opFails with
      | some m => StepResult.failure m w.probeConnected
      | none => StepResult.success false
  | ActionType.press =>
    if optStrFalsy a.key then
      StepResult.failure ("Key is required for press action".toList) w.probeConnected
    else match w.opFails with
      | some m => StepResult.failure m w.probeConnected
      | none => StepResult.success false
  | ActionType.select =>
    if optStrFalsy a.locator || optStrFalsy a.value then
      StepResult.failure ("Locator and value are required for select action".toList)
        w.probeConnected
    else match w.opFails with
      | some m => StepResult.failure m w.probeConnected
      | none => StepResult.success false
  | ActionType.hover =>
    if optStrFalsy a.locator then
      StepResult.failure ("Locator is required for hover action".toList) w.probeConnected
    else match w.opFails with
      | some m => StepResult.failure m w.probeConnected
      | none => StepResult.success false
  | ActionType.screenshot =>
    match w.opFails with
    | some m => StepResult.failure m w.probeConnected
    | none => StepResult.success true
  | ActionType.extract => StepResult.success false

/-- Outcome of the retry loop for one action. `raised` is the exception that
escapes at line 840 when a logic failure meets an exhausted counter;
`succeeded` records whether the action body ever reached its `break`; when
both are negative the `while retries <= max_retries` guard expired after
connectivity retries and the loop was abandoned without success. -/
structure LoopResult where
  raised : Option Str
  succeeded : Bool
  retriesFinal : Nat
  repairs : Nat
  restarts : Nat
  shot : Bool
  finalAction : BrowserAction
  deriving DecidableEq

/-- The retry loop of lines 740-851 for one action.  `fuel` is the number of
loop-guard checks still allowed to pass; the guard `retries <= max_retries`
with `max_retries = 2` admits iterations at counter values 0, 1 and 2, so
the loop starts with fuel 3 and fuel equals `3 - retries` throughout.  A
failure whose probe reports a disconnected browser restarts the browser
(lines 831-832): when the restart raises, that exception propagates out of
the loop (there is no handler around lines 831-832), and otherwise
`retries` increments without troubleshooting (lines 835-836); a logic
failure at `retries >= max_retries` re-raises (lines 839-840); otherwise the
action is replaced by the troubleshooting suggestion and `retries` and the
repair count increment (lines 843-848). -/
def runActionLoop (w : Nat → WorldStep) (repair : Nat → BrowserAction → BrowserAction) :
    Nat → Nat → Nat → Nat → BrowserAction → Bool → LoopResult
  | 0, retries, repairs, restarts, a, shot =>
    ⟨none, false, retries, repairs, restarts, shot, a⟩
  | fuel + 1, retries, repairs, restarts, a, shot =>
    match attemptAction a (w retries) with
    | StepResult.success tookShot =>
      ⟨none, true, retries, repairs, restarts, shot || tookShot, a⟩
    | StepResult.failure msg connected =>
      if connected then
        if 2 ≤ retries then ⟨some msg, false, retries, repairs, restarts, shot, a⟩
        else runActionLoop w repair fuel (retries + 1) (repairs + 1) restarts
          (repair retries a) shot
      else
        match (w retries).restartFails with
        | some rmsg => ⟨some rmsg, false, retries, repairs, restarts, shot, a⟩
        | none => runActionLoop w repair fuel (retries + 1) repairs (restarts + 1) a shot

/-- Environment of one `execute_actions` run: the outcome of the pre-loop
browser start and connectivity probe (lines 720-734, whose exceptions land
in the outer handler at line 864 before any action runs), the world of
every attempt, the troubleshooting replacements, and whether the final and
the error-path screenshot captures (lines 856-862 and 870-876) succeed. -/
structure ExecEnv where
  preloopFails : Option Str
  w : Nat → Nat → WorldStep
  repair : Nat → Nat → BrowserAction → BrowserAction
  finalShotOk : Bool
  errorShotOk : Bool

/-- The `for` loop of lines 736-854: actions run strictly in order, each
through its own retry loop; the first raised exception escapes the loop and
no later action runs.  Returns the escaped message (if any) and whether a
Screenshot action stored a screenshot. -/
def execGo (env : ExecEnv) : Nat → List BrowserAction → Bool → Option Str × Bool
  | _, [], shot => (none, shot)
  | i, a :: rest, shot =>
    let r := runActionLoop (env.w i) (env.repair i) 3 0 0 0 a false
    match r.raised with
    | some msg => (some msg, shot)
    | none => execGo env (i + 1) rest (shot || r.shot)

/-- The trace of per-action loop results for the executed prefix of the
plan (the actions the `for` loop reaches before an exception escapes). -/
def execTrace (env : ExecEnv) : Nat → List BrowserAction → List LoopResult
  | _, [] => []
  | i, a :: rest =>
    let r := runActionLoop (env.w i) (env.repair i) 3 0 0 0 a false
    match r.raised with
    | some _ => [r]
    | none => r :: execTrace env (i + 1) rest

/-- `execute_actions` (lines 702-878).  The result record is created
optimistically at lines 713-718 with the request id and the current time;
afterwards only `success`, `message`, `error` and `screenshot` are assigned.
A pre-loop browser start or probe-reset failure (lines 720-734) raises into
the outer handler at line 864 before any action runs.  On normal completion
a final screenshot capture may overwrite the screenshot field (lines
856-862); on the error path the handler sets the failure fields and
attempts an error screenshot.  Capture failures are swallowed. -/
def execute_actions (env : ExecEnv) (actions : List BrowserAction)
    (request_id : Str) (now : Nat) : ExecutionResult :=
  match env.preloopFails with
  | some msg =>
    { request_id := request_id
      success := false
      message := "Error executing actions".toList
      screenshot := env.errorShotOk
      extracted_data := none
      error := some msg
      completed_at := now }
  | none =>
    match execGo env 0 actions false with
    | (none, shot) =>
      { request_id := request_id
        success := true
        message := "Actions executed successfully".toList
        screenshot := shot || env.finalShotOk
        extracted_data := none
        error := none
        completed_at := now }
    | (some msg, shot) =>
      { request_id := request_id
        success := false
        message := "Error executing actions".toList
        screenshot := shot || env.errorShotOk
        extracted_data := none
        error := some msg
        completed_at := now }

/-!
## Locator Resolver, click chain (`_handle_click`, lines 880-1016)

The environment supplies the outcome of each Playwright call the chain can
make.  The control flow mirrors the source, including its final shape: the
commented-out JavaScript block at lines 999-1011 left behind a bare
`return` that now belongs to the `except` handler of the element-count
attempt (line 995), and the `except ... raise` at lines 1013-1016 became a
second, unreachable handler of the `try` at line 980 — so after the first
click fails, every further path returns normally.
-/

/-- Behavior of one element handle enumerated by the strict-mode branch:
the `is_visible()` probe outcome and the `click()` outcome. -/
structure ElemBehavior where
  visibleR : Except Str Bool
  clickR : Except Str Unit

/-- Outcomes of every Playwright call `_handle_click` can make. -/
structure ClickEnv where
  firstClick : Except Str Unit
  allElems : Except Str (List ElemBehavior)
  roleClick : Except Str Unit
  textClick : Except Str Unit
  hrefClick : Except Str Unit
  loginClick : Nat → Except Str Unit
  countR : Except Str Nat
  nthClick : Nat → Except Str Unit

/-- Parse `resolved to (\d+) elements` out of an error message (line 894). -/
def parseResolvedCount : Str → Option Nat
  | [] => none
  | c :: rest =>
    if ("resolved to ".toList).isPrefixOf (c :: rest) then
      let after := (c :: rest).drop 12
      let ds := after.takeWhile Char.isDigit
      if !ds.isEmpty && ("elements".toList).isPrefixOf ((after.dropWhile Char.isDigit).drop 1)
          && startsWith (" ".toList) (after.dropWhile Char.isDigit) then
        some (digitsToNat ds)
      else parseResolvedCount rest
    else parseResolvedCount rest

/-- The strict-mode branch condition of lines 891-897: the error message
mentions a strict mode violation, mentions `resolved to`, and the count
regex finds a match (the count itself is only logged). -/
def strictModeInfo (msg : Str) : Option Nat :=
  if containsSub ("strict mode violation".toList) msg
      && containsSub ("resolved to".toList) msg then
    parseResolvedCount msg
  else none

/-- The visible-element enumeration of lines 899-913: click the first
enumerated element whose visibility probe answers true and whose click
succeeds; probe errors and click errors skip to the next element. -/
def clickFirstVisible : List ElemBehavior → Bool
  | [] => false
  | e :: rest =>
    match e.visibleR with
    | Except.error _ => clickFirstVisible rest
    | Except.ok false => clickFirstVisible rest
    | Except.ok true =>
      match e.clickR with
      | Except.ok _ => true
      | Except.error _ => clickFirstVisible rest

/-- Parse of the role locator regex `role:(\w+)(?:\[name=['\x22]([^'\x22]+)['\x22]\])?`
at line 919 (`re.match`, so only anchored at the start; the optional name
group accepts either quote character on each side). -/
def roleLocatorParse (loc : Str) : Option (Str × Option Str) :=
  if ("role:".toList).isPrefixOf loc then
    let r := loc.drop 5
    let w := r.takeWhile isWordChar
    if w.isEmpty then none
    else
      let rest := r.dropWhile isWordChar
      if ("[name=".toList).isPrefixOf rest then
        match rest.drop 6 with
        | q :: r2 =>
          if q = squote || q = '"' then
            let nm := r2.takeWhile (fun c => c ≠ squote && c ≠ '"')
            match r2.dropWhile (fun c => c ≠ squote && c ≠ '"') with
            | q2 :: ']' :: _ =>
              if (q2 = squote || q2 = '"') && !nm.isEmpty then some (w, some nm)
              else some (w, none)
            | _ => some (w, none)
          else some (w, none)
        | [] => some (w, none)
      else some (w, none)
  else none

/-- The text extraction of line 936: everything after the first `=` if one
occurs anywhere in the locator, else everything after the first `:`,
stripped of quote characters. -/
def textLocatorValue (loc : Str) : Str :=
  if containsSub ("=".toList) loc then
    stripChars [squote, '"'] ((loc.dropWhile (· ≠ '=')).drop 1)
  else
    stripChars [squote, '"'] ((loc.dropWhile (· ≠ ':')).drop 1)

/-- The href-value regex `href=['\x22]([^'\x22]+)['\x22]` search of line 950. -/
def findHrefValue : Str → Option Str
  | [] => none
  | c :: rest =>
    if ("href=".toList).isPrefixOf (c :: rest) then
      match (c :: rest).drop 5 with
      | q :: r2 =>
        if q = squote || q = '"' then
          let v := r2.takeWhile (fun ch => ch ≠ squote && ch ≠ '"')
          if !v.isEmpty
              && !(r2.dropWhile (fun ch => ch ≠ squote && ch ≠ '"')).isEmpty then
            some v
          else findHrefValue rest
        else findHrefValue rest
      | [] => findHrefValue rest
    else findHrefValue rest

/-- The canonical submit-button selectors of lines 964-970 (quote characters
spelled out to keep them out of string literals). -/
def loginButtonSelectors : List Str :=
  [ "input[type=".toList ++ [squote] ++ "submit".toList ++ [squote, ']'],
    "button[type=".toList ++ [squote] ++ "submit".toList ++ [squote, ']'],
    "button.btn-primary".toList,
    ".btn-login".toList,
    ".btn-signin".toList ]

/-- The selector loop of lines 963-976: try each canonical selector until
one click succeeds. -/
def tryLoginSelectors (env : ClickEnv) : Nat → Bool
  | 0 => false
  | n + 1 =>
    let i := loginButtonSelectors.length - (n + 1)
    match env.loginClick i with
    | Except.ok _ => true
    | Except.error _ => tryLoginSelectors env n

/-- The brute-force loop of lines 984-994: try each position until one click
succeeds; `n` positions remain out of `total`. -/
def tryNthClicks (env : ClickEnv) (total : Nat) : Nat → Bool
  | 0 => false
  | n + 1 =>
    let i := total - (n + 1)
    match env.nthClick i with
    | Except.ok _ => true
    | Except.error _ => tryNthClicks env total n

/-- `_handle_click` (lines 880-1016).  Success paths return `ok`.  Due to
the leftover `return` inside the count-failure handler and the fall-through
after the brute-force loop, every failure path also returns `ok`: the
`raise` of line 1016 sits in an unreachable second handler, so the original
error is never propagated. -/
def handle_click (env : ClickEnv) (locator : Str) : Except Str Unit :=
  match env.firstClick with
  | Except.ok _ => Except.ok ()
  | Except.error e =>
    -- strict-mode branch (lines 891-915)
    let strictDone :=
      match strictModeInfo e with
      | some _ =>
        match env.allElems with
        | Except.ok elems => clickFirstVisible elems
        | Except.error _ => false
      | none => false
    if strictDone then Except.ok ()
    else
    -- role-based strategy (lines 918-932)
    let roleDone :=
      if startsWith ("role:".toList) locator then
        match roleLocatorParse locator with
        | some _ =>
          match env.roleClick with
          | Except.ok _ => true
          | Except.error _ => false
        | none => false
      else false
    if roleDone then Except.ok ()
    else
    -- text-based strategy (lines 935-943)
    let textDone :=
      if startsWith ("text=".toList) locator || startsWith ("text:".toList) locator then
        match env.textClick with
        | Except.ok _ => true
        | Except.error _ => false
      else false
    if textDone then Except.ok ()
    else
    -- href-based strategy (lines 946-960)
    let hrefDone :=
      if startsWith ("a[href".toList) locator || containsSub ("href".toList) locator then
        match findHrefValue locator with
        | some _ =>
          match env.hrefClick with
          | Except.ok _ => true
          | Except.error _ => false
        | none => false
      else false
    if hrefDone then Except.ok ()
    else
    -- login-button strategy (lines 963-976)
    let loginDone :=
      if containsSub ("login".toList) (toLowerStr locator)
          || containsSub ("sign in".toList) (toLowerStr locator) then
        tryLoginSelectors env loginButtonSelectors.length
      else false
    if loginDone then Except.ok ()
    else
    -- brute-force nth strategy (lines 980-996) and the stray return of
    -- line 1012 inside the count-failure handler: both endpoints return
    -- normally, never re-raising the original error `e`.
    match env.countR with
    | Except.ok n => if tryNthClicks env n n then Except.ok () else Except.ok ()
    | Except.error _ => Except.ok ()

/-!
## Session Manager stop (`stop_browser`, lines 82-100)
-/

/-- Which of the four handles the service currently holds. -/
structure BrowserState where
  page : Bool
  context : Bool
  browser : Bool
  pw : Bool
  deriving DecidableEq

/-- The state with no live session. -/
def emptyBrowserState : BrowserState := ⟨false, false, false, false⟩

/-- Whether each close/stop call would succeed. -/
structure CloseWorld where
  pageCloseOk : Bool
  contextCloseOk : Bool
  browserCloseOk : Bool
  pwStopOk : Bool

/-- `stop_browser` (lines 82-100): close each held handle in order, setting
the field to None afterwards.  There is no try/finally: an exception from a
close call propagates immediately, leaving that handle and all later ones
still held.  Returns the final state and the propagated error, if any. -/
def stop_browser (w : CloseWorld) (s : BrowserState) : BrowserState × Option Str :=
  if s.page && !w.pageCloseOk then (s, some ("page.close failed".toList))
  else
    let s1 : BrowserState := { s with page := false }
    if s1.context && !w.contextCloseOk then (s1, some ("context.close failed".toList))
    else
      let s2 : BrowserState := { s1 with context := false }
      if s2.browser && !w.browserCloseOk then (s2, some ("browser.close failed".toList))
      else
        let s3 : BrowserState := { s2 with browser := false }
        if s3.pw && !w.pwStopOk then (s3, some ("playwright.stop failed".toList))
        else ({ s3 with pw := false }, none)

/-!
## Concrete instances used by the theorems below
-/

/-- Whether every member of a parsed repair object carries a value its target
field accepts; used to state the merge behavior for a usable oracle reply. -/
def repairEntryOk : Str × Json → Bool
  | (k, v) =>
    if k = "action".toList then (parseActionTypeJson v).isSome
    else if k = "time_ms".toList then (jsonAsOptInt v).isSome
    else if k = "locator".toList || k = "url".toList || k = "text".toList
        || k = "key".toList || k = "value".toList then (jsonAsOptStr v).isSome
    else true

/-- Every member of the repair object is acceptable to its field. -/
def repairWellFormed (fixed : List (Str × Json)) : Bool := fixed.all repairEntryOk

/-- A Playwright timeout message carrying no strict-mode marker. -/
def clickTimeoutMsg : Str := "Timeout 3000ms exceeded waiting for selector".toList

/-- A page on which the first-match click times out and every fallback
strategy fails: no element enumerates, role/text/href/login clicks all fail,
and the raw locator counts zero elements. -/
def cenvC1 : ClickEnv :=
  { firstClick := Except.error clickTimeoutMsg
    allElems := Except.error ("no elements".toList)
    roleClick := Except.error ("role click failed".toList)
    textClick := Except.error ("text click failed".toList)
    hrefClick := Except.error ("href click failed".toList)
    loginClick := fun _ => Except.error ("selector click failed".toList)
    countR := Except.ok 0
    nthClick := fun _ => Except.error ("nth click failed".toList) }

/-- An oracle reply with no code fence, no bracket pair and no valid JSON. -/
def unparsableResponse : Str := "I am sorry, I cannot help with that.".toList

/-- A translate run that reaches the action-extraction step and receives the
unparsable reply. -/
def envC2 : TranslateEnv :=
  ⟨"github.com".toList, true, "<p>x</p>".toList, unparsableResponse⟩

/-- A translate run whose action-extraction reply is prose without JSON. -/
def envC2w : TranslateEnv :=
  ⟨"x.com".toList, true, "<p>ok</p>".toList, "no json here".toList⟩

/-- The Playwright message of a closed browser connection. -/
def disconnectMsg : Str := "Target page, context or browser has been closed".toList

/-- A world in which every attempt fails with a disconnected probe and
every session restart succeeds. -/
def wC3 : Nat → WorldStep := fun _ => ⟨some disconnectMsg, false, none⟩

/-- A troubleshooting oracle that returns the action unchanged. -/
def repair3 : Nat → BrowserAction → BrowserAction := fun _ a => a

/-- A Hover action; its dispatch (line 801) calls the page directly, so it
can fail in the source, unlike a Click. -/
def aHover3 : BrowserAction :=
  ⟨ActionType.hover, some ("#menu".toList), none, none, none, none, none⟩

/-- An execution environment whose pre-loop start succeeds and in which
every attempt fails with a disconnected probe and a successful restart. -/
def envC7 : ExecEnv :=
  ⟨none, fun _ _ => ⟨some disconnectMsg, false, none⟩, fun _ _ a => a, true, true⟩

/-- A Hover action with a live failure path in the source (line 801). -/
def aHover7 : BrowserAction :=
  ⟨ActionType.hover, some ("#nav-menu".toList), none, none, none, none, none⟩

/-- A translate run whose oracle reply holds one Navigate entry and one
Click entry. -/
def tenv6 : TranslateEnv :=
  ⟨"github.com".toList, true, "<p>x</p>".toList,
    "[\x7b\"action\": \"navigate\", \"url\": \"https://x.co\"\x7d, \x7b\"action\": \"click\", \"locator\": \"#go\"\x7d]".toList⟩

/-- The Click action the plan of `tenv6` keeps. -/
def a6 : BrowserAction :=
  ⟨ActionType.click, some ("#go".toList), none, none, none, none, none⟩

/-- A world in which closing the page raises. -/
def wC8 : CloseWorld := ⟨false, true, true, true⟩

/-- A state holding all four handles. -/
def fullBrowserState : BrowserState := ⟨true, true, true, true⟩

/-- A repair object that supplies a locator, nulls the text, and omits every
other field. -/
def fx9 : List (Str × Json) :=
  [("locator".toList, Json.str ("#new-btn".toList)), ("text".toList, Json.null)]

def orig9 : BrowserAction :=
  ⟨ActionType.fill, some ("#old".toList), none, some ("hello".toList), none, none,
    some ("x".toList)⟩

/-!
## Lemmas about the sanitization pipeline
-/

theorem isPrefixOf_head_eq {a b : Char} {l t : Str}
    (h : (a :: l).isPrefixOf (b :: t) = true) : a = b := by
  simp [List.isPrefixOf] at h
  exact h.1

theorem mem_of_isPrefixOf_head {a : Char} {l s : Str}
    (h : (a :: l).isPrefixOf s = true) : a ∈ s := by
  cases s with
  | nil => simp [List.isPrefixOf] at h
  | cons b t =>
    rw [isPrefixOf_head_eq h]
    exact List.mem_cons_self b t

/-- A `re.sub` pass with no match anywhere leaves the text unchanged. -/
theorem scanRemove_id (matchAt : Str → Option Str) (fuel : Nat) :
    ∀ s : Str, (∀ t, t <:+ s → matchAt t = none) → scanRemove matchAt fuel s = s := by
  induction fuel with
  | zero => intro s _; rfl
  | succ f ih =>
    intro s h
    cases s with
    | nil => rfl
    | cons c rest =>
      simp only [scanRemove, h (c :: rest) (List.suffix_refl _)]
      exact congrArg (c :: ·) (ih rest fun t ht => h t (ht.trans (List.suffix_cons c rest)))

/-- A `re.findall` pass with no match anywhere collects nothing. -/
theorem scanCollect_nil (matchAt : Str → Option (Str × Str)) (fuel : Nat) :
    ∀ s : Str, (∀ t, t <:+ s → matchAt t = none) → scanCollect matchAt fuel s = [] := by
  induction fuel with
  | zero => intro s _; rfl
  | succ f ih =>
    intro s h
    cases s with
    | nil => rfl
    | cons c rest =>
      simp only [scanCollect, h (c :: rest) (List.suffix_refl _)]
      exact ih rest fun t ht => h t (ht.trans (List.suffix_cons c rest))

theorem tagBlockMatch_eq_none {tag s : Str} (h : '<' ∉ s) : tagBlockMatch tag s = none := by
  unfold tagBlockMatch
  have hp : ¬(('<' :: tag).isPrefixOf s = true) := fun hp => h (mem_of_isPrefixOf_head hp)
  have hcond : ¬((('<' :: tag).isPrefixOf s && tagBoundaryOk tag s) = true) := by
    rw [Bool.and_eq_true]
    exact fun hb => hp hb.1
  rw [if_neg hcond]

theorem commentMatch_eq_none {s : Str} (h : '<' ∉ s) : commentMatch s = none := by
  unfold commentMatch
  have hp : ¬((("<!--".toList : Str)).isPrefixOf s = true) := fun hp =>
    h (mem_of_isPrefixOf_head (l := "!--".toList) hp)
  rw [if_neg hp]

theorem simpleTagMatch_eq_none {tag s : Str} (h : '<' ∉ s) : simpleTagMatch tag s = none := by
  unfold simpleTagMatch
  have hp : ¬(('<' :: tag).isPrefixOf s = true) := fun hp => h (mem_of_isPrefixOf_head hp)
  have hcond : ¬((('<' :: tag).isPrefixOf s && tagBoundaryOk tag s) = true) := by
    rw [Bool.and_eq_true]
    exact fun hb => hp hb.1
  rw [if_neg hcond]

theorem hiddenMatch_eq_none {s : Str} (h : '<' ∉ s) : hiddenMatch s = none := by
  unfold hiddenMatch
  cases s with
  | nil => rfl
  | cons c rest =>
    have hc : ¬(c = '<') := fun e => h (by rw [← e]; exact List.mem_cons_self c rest)
    simp [hc]

theorem displayNoneMatch_eq_none {s : Str} (h : '<' ∉ s) : displayNoneMatch s = none := by
  unfold displayNoneMatch
  cases s with
  | nil => rfl
  | cons c rest =>
    have hc : ¬(c = '<') := fun e => h (by rw [← e]; exact List.mem_cons_self c rest)
    simp [hc]

theorem dataAttrMatch_eq_none {s : Str} (h : '"' ∉ s) : dataAttrMatch s = none := by
  cases s with
  | nil => rfl
  | cons c s0 =>
    simp only [dataAttrMatch]
    by_cases hs : isSpaceChar c = true
    case neg => rw [if_neg hs]
    case pos =>
      rw [if_pos hs]
      by_cases hp : ("data-".toList : Str).isPrefixOf ((c :: s0).dropWhile isSpaceChar) = true
      case neg => rw [if_neg hp]
      case pos =>
        rw [if_pos hp]
        by_cases he :
            ((((c :: s0).dropWhile isSpaceChar).drop 5).takeWhile isNameChar).isEmpty = true
        case pos => rw [if_pos he]
        case neg =>
          rw [if_neg he]
          cases hm : (((c :: s0).dropWhile isSpaceChar).drop 5).dropWhile isNameChar with
          | nil => rfl
          | cons c3 t3 =>
            cases t3 with
            | nil => rfl
            | cons c4 r4 =>
              have hmem : c4 ∈ (c :: s0) := by
                have m1 :
                    c4 ∈ (((c :: s0).dropWhile isSpaceChar).drop 5).dropWhile isNameChar := by
                  rw [hm]; exact List.mem_cons_of_mem _ (List.mem_cons_self c4 r4)
                exact (List.dropWhile_sublist _).subset
                  ((List.drop_sublist _ _).subset ((List.dropWhile_sublist _).subset m1))
              have hc4 : ¬(c3 = '=' ∧ c4 = '"') := fun e =>
                h (by rw [← e.2]; exact hmem)
              exact if_neg hc4

/-!
## Lemmas about whitespace collapsing
-/

/-- No two adjacent characters are both whitespace. -/
def noWsPair (a b : Char) : Prop := ¬(isSpaceChar a = true ∧ isSpaceChar b = true)

theorem mem_flushWs {c : Char} {pend : Option (Char × Bool)} (h : c ∈ flushWs pend) :
    c = ' ' ∨ ∃ b, pend = some (c, b) := by
  match pend with
  | none => simp [flushWs] at h
  | some (d, false) =>
    simp [flushWs] at h
    exact Or.inr ⟨false, by rw [h]⟩
  | some (d, true) =>
    simp [flushWs] at h
    exact Or.inl h

theorem mem_goWs {c : Char} :
    ∀ (s : Str) (pend : Option (Char × Bool)), c ∈ goWs pend s →
      c ∈ s ∨ c = ' ' ∨ ∃ b, pend = some (c, b) := by
  intro s
  induction s with
  | nil =>
    intro pend h
    exact Or.inr (mem_flushWs h)
  | cons d rest ih =>
    intro pend h
    by_cases hd : isSpaceChar d = true
    · rcases pend with _ | ⟨e, bb⟩
      · simp only [goWs, hd, if_true] at h
        rcases ih _ h with h1 | h1 | ⟨b, hb⟩
        · exact Or.inl (List.mem_cons_of_mem _ h1)
        · exact Or.inr (Or.inl h1)
        · injection hb with hb2
          injection hb2 with hb3 _
          exact Or.inl (by rw [← hb3]; exact List.mem_cons_self d rest)
      · simp only [goWs, hd, if_true] at h
        rcases ih _ h with h1 | h1 | ⟨b, hb⟩
        · exact Or.inl (List.mem_cons_of_mem _ h1)
        · exact Or.inr (Or.inl h1)
        · injection hb with hb2
          injection hb2 with hb3 _
          exact Or.inr (Or.inr ⟨bb, by rw [hb3]⟩)
    · simp only [goWs] at h
      rw [if_neg hd] at h
      rcases List.mem_append.mp h with h1 | h1
      · exact Or.inr (mem_flushWs h1)
      · rcases List.mem_cons.mp h1 with h2 | h2
        · exact Or.inl (by rw [h2]; exact List.mem_cons_self d rest)
        · rcases ih none h2 with h3 | h3 | ⟨b, hb⟩
          · exact Or.inl (List.mem_cons_of_mem _ h3)
          · exact Or.inr (Or.inl h3)
          · cases hb

theorem mem_collapse_whitespace {c : Char} {s : Str} (h : c ∈ collapse_whitespace s) :
    c ∈ s ∨ c = ' ' := by
  rcases mem_goWs s none h with h1 | h1 | ⟨b, hb⟩
  · exact Or.inl h1
  · exact Or.inr h1
  · cases hb

theorem chain'_goWs : ∀ (s : Str) (pend : Option (Char × Bool)),
    List.Chain' noWsPair (goWs pend s) := by
  intro s
  induction s with
  | nil =>
    intro pend
    rcases pend with _ | ⟨d, b⟩
    · simp [goWs, flushWs]
    · cases b <;> simp [goWs, flushWs]
  | cons d rest ih =>
    intro pend
    by_cases hd : isSpaceChar d = true
    · rcases pend with _ | ⟨e, bb⟩ <;> simp only [goWs, hd, if_true] <;> exact ih _
    · simp only [goWs]
      rw [if_neg hd]
      refine List.chain'_append.mpr ⟨?_, ?_, ?_⟩
      · rcases pend with _ | ⟨e, b⟩
        · simp [flushWs]
        · cases b <;> simp [flushWs]
      · refine List.chain'_cons'.mpr ⟨?_, ih none⟩
        intro y _
        exact fun hpair => hd hpair.1
      · intro x _ y hy
        simp at hy
        rw [← hy]
        exact fun hpair => hd hpair.2

/-- On text with no adjacent whitespace pair, collapsing is the identity; the
second component drives the recursion through a pending lone whitespace. -/
theorem goWs_eq_self : ∀ s : Str, List.Chain' noWsPair s →
    goWs none s = s ∧
      ∀ c : Char, isSpaceChar c = true →
        (∀ h ∈ s.head?, isSpaceChar h = false) → goWs (some (c, false)) s = c :: s := by
  intro s
  induction s with
  | nil =>
    intro _
    exact ⟨rfl, fun c _ _ => rfl⟩
  | cons d rest ih =>
    intro hch
    have hch' := List.chain'_cons'.mp hch
    have IH := ih hch'.2
    constructor
    · by_cases hd : isSpaceChar d = true
      · simp only [goWs, hd, if_true]
        apply IH.2 d hd
        intro h hh
        have hpair := hch'.1 h hh
        cases hsp : isSpaceChar h
        · rfl
        · exact absurd ⟨hd, hsp⟩ hpair
      · simp only [goWs]
        rw [if_neg hd]
        rw [IH.1]
        rfl
    · intro c _ hhead
      have hd : isSpaceChar d = false := hhead d rfl
      simp only [goWs]
      rw [if_neg (by simp [hd])]
      rw [IH.1]
      rfl

theorem collapse_whitespace_chain' (s : Str) :
    List.Chain' noWsPair (collapse_whitespace s) := chain'_goWs s none

theorem collapse_whitespace_eq_self {s : Str} (h : List.Chain' noWsPair s) :
    collapse_whitespace s = s := (goWs_eq_self s h).1

theorem collapse_whitespace_idem (s : Str) :
    collapse_whitespace (collapse_whitespace s) = collapse_whitespace s :=
  collapse_whitespace_eq_self (collapse_whitespace_chain' s)

theorem chain'_of_no_space {s : Str} (h : ∀ c ∈ s, isSpaceChar c = false) :
    List.Chain' noWsPair s := by
  induction s with
  | nil => simp
  | cons d rest ih =>
    refine List.chain'_cons'.mpr ⟨?_, ih fun c hc => h c (List.mem_cons_of_mem _ hc)⟩
    intro y _
    intro hpair
    rw [h d (List.mem_cons_self d rest)] at hpair
    cases hpair.1

/-!
## Stage identity lemmas and the sanitizer on markup-free text
-/

theorem remove_script_tags_id {s : Str} (h : '<' ∉ s) : remove_script_tags s = s :=
  scanRemove_id _ _ s fun t ht => by
    rw [tagBlockMatch_eq_none fun hc => h (ht.subset hc)]; rfl

theorem remove_style_tags_id {s : Str} (h : '<' ∉ s) : remove_style_tags s = s :=
  scanRemove_id _ _ s fun t ht => by
    rw [tagBlockMatch_eq_none fun hc => h (ht.subset hc)]; rfl

theorem remove_comment_tags_id {s : Str} (h : '<' ∉ s) : remove_comment_tags s = s :=
  scanRemove_id _ _ s fun t ht => commentMatch_eq_none fun hc => h (ht.subset hc)

theorem remove_meta_tags_id {s : Str} (h : '<' ∉ s) : remove_meta_tags s = s :=
  scanRemove_id _ _ s fun t ht => simpleTagMatch_eq_none fun hc => h (ht.subset hc)

theorem remove_link_tags_id {s : Str} (h : '<' ∉ s) : remove_link_tags s = s :=
  scanRemove_id _ _ s fun t ht => simpleTagMatch_eq_none fun hc => h (ht.subset hc)

theorem remove_svg_tags_id {s : Str} (h : '<' ∉ s) : remove_svg_tags s = s :=
  scanRemove_id _ _ s fun t ht => by
    rw [tagBlockMatch_eq_none fun hc => h (ht.subset hc)]; rfl

theorem remove_footer_tags_id {s : Str} (h : '<' ∉ s) : remove_footer_tags s = s :=
  scanRemove_id _ _ s fun t ht => by
    rw [tagBlockMatch_eq_none fun hc => h (ht.subset hc)]; rfl

theorem remove_data_attributes_id {s : Str} (h : '"' ∉ s) : remove_data_attributes s = s :=
  scanRemove_id _ _ s fun t ht => dataAttrMatch_eq_none fun hc => h (ht.subset hc)

theorem remove_hidden_elements_id {s : Str} (h : '<' ∉ s) : remove_hidden_elements s = s :=
  scanRemove_id _ _ s fun t ht => hiddenMatch_eq_none fun hc => h (ht.subset hc)

theorem remove_display_none_elements_id {s : Str} (h : '<' ∉ s) :
    remove_display_none_elements s = s :=
  scanRemove_id _ _ s fun t ht => displayNoneMatch_eq_none fun hc => h (ht.subset hc)

/-- On text with no tag-opening and no double quote, the cleaning pipeline
reduces to the whitespace collapse. -/
theorem clean_html_content_eq_collapse {s : Str} (h1 : '<' ∉ s) (h2 : '"' ∉ s) :
    clean_html_content s = collapse_whitespace s := by
  unfold clean_html_content
  rw [remove_script_tags_id h1, remove_style_tags_id h1, remove_comment_tags_id h1,
    remove_meta_tags_id h1, remove_link_tags_id h1, remove_svg_tags_id h1,
    remove_data_attributes_id h2, remove_hidden_elements_id h1,
    remove_display_none_elements_id h1]
  apply remove_footer_tags_id
  intro hc
  rcases mem_collapse_whitespace hc with h3 | h3
  · exact h1 h3
  · exact absurd h3 (by decide)

/-- On whitespace-free, markup-free text the cleaning pipeline is the
identity. -/
theorem clean_html_content_id_plain {s : Str} (h1 : '<' ∉ s) (h2 : '"' ∉ s)
    (h3 : ∀ c ∈ s, isSpaceChar c = false) : clean_html_content s = s := by
  rw [clean_html_content_eq_collapse h1 h2]
  exact collapse_whitespace_eq_self (chain'_of_no_space h3)

theorem findTagBlocks_eq_nil {tag s : Str} (h : '<' ∉ s) : findTagBlocks tag s = [] :=
  scanCollect_nil _ _ s fun t ht => tagBlockMatch_eq_none fun hc => h (ht.subset hc)

theorem important_parts_eq_nil {s : Str} (h : '<' ∉ s) : important_parts s = [] := by
  simp [important_parts, findTagBlocks_eq_nil h]

theorem escape_braces_id {s : Str} (h : ∀ c ∈ s, ¬(c = obrace) ∧ ¬(c = cbrace)) :
    escape_braces s = s := by
  induction s with
  | nil => rfl
  | cons c rest ih =>
    have hc := h c (List.mem_cons_self c rest)
    simp only [escape_braces, List.flatMap_cons]
    rw [if_neg (by simp [hc.1, hc.2])]
    have := ih fun d hd => h d (List.mem_cons_of_mem _ hd)
    simp only [escape_braces] at this
    rw [this]
    rfl

theorem escape_braces_length_le (s : Str) : (escape_braces s).length ≤ 2 * s.length := by
  induction s with
  | nil => simp [escape_braces]
  | cons c rest ih =>
    simp only [escape_braces, List.flatMap_cons, List.length_append, List.length_cons]
    simp only [escape_braces] at ih
    by_cases hb : c = obrace ∨ c = cbrace
    · rw [if_pos (by rcases hb with h | h <;> simp [h])]
      simp only [List.length_cons, List.length_nil]
      omega
    · rw [if_neg (by push_neg at hb; simp [hb.1, hb.2])]
      simp only [List.length_cons, List.length_nil]
      omega

/-!
## Lemmas about the retry loop
-/

/-- Invariant of the retry loop: repairs happen only at counter values 0 and
1, so the number of oracle-assisted repairs never exceeds 2. -/
theorem runActionLoop_repairs_le (w : Nat → WorldStep)
    (repair : Nat → BrowserAction → BrowserAction) :
    ∀ (fuel retries repairs restarts : Nat) (a : BrowserAction) (shot : Bool),
      repairs ≤ min retries 2 →
      (runActionLoop w repair fuel retries repairs restarts a shot).repairs ≤ 2 := by
  intro fuel
  induction fuel with
  | zero =>
    intro r p rs a sh h
    show p ≤ 2
    omega
  | succ f ih =>
    intro r p rs a sh h
    simp only [runActionLoop]
    cases attemptAction a (w r) with
    | success ts =>
      show p ≤ 2
      omega
    | failure msg conn =>
      cases conn with
      | false =>
        simp only [Bool.false_eq_true, if_false]
        cases (w r).restartFails with
        | some rmsg =>
          show p ≤ 2
          omega
        | none =>
          exact ih (r + 1) p (rs + 1) a sh (by omega)
      | true =>
        simp only [if_true]
        by_cases hr : 2 ≤ r
        · rw [if_pos hr]
          show p ≤ 2
          omega
        · rw [if_neg hr]
          exact ih (r + 1) (p + 1) rs (repair r a) sh (by omega)

/-!
## Claim theorems
-/

/-- C1: the claim reads that when every step of the click fallback chain
fails, the click operation propagates the original error instead of
returning normally.  The code violates this: on the page `cenvC1`, where the
first-match click raises a timeout and every fallback strategy fails with
zero elements counted, `_handle_click` returns normally, swallowing the
original error (the `raise` at line 1016 is in an unreachable handler and
the leftover `return` at line 1012 exits the count-failure handler
normally). -/
theorem C1_click_chain_silent_success_when_all_strategies_fail :
    cenvC1.firstClick = Except.error clickTimeoutMsg ∧
    cenvC1.countR = Except.ok 0 ∧
    handle_click cenvC1 ("#missing".toList) = Except.ok () :=
  ⟨rfl, rfl, rfl⟩

/-- C3 counterexample: a Hover action (which, unlike a Click, has a live
failure path in the source) fails three times with a disconnected probe and
a successful restart each time; the single retry counter of the loop
reaches 3 — it is incremented by the connectivity retries and exceeds the
claimed bound of 2 — while no oracle-assisted repair ever ran and the
action never succeeded. -/
theorem C3_counterexample_connectivity_increments_counter :
    (runActionLoop wC3 repair3 3 0 0 0 aHover3 false).retriesFinal = 3 ∧
    (runActionLoop wC3 repair3 3 0 0 0 aHover3 false).repairs = 0 ∧
    (runActionLoop wC3 repair3 3 0 0 0 aHover3 false).succeeded = false :=
  ⟨rfl, rfl, rfl⟩

/-- C3 (amended): the number of oracle-assisted repair invocations for one
action never exceeds 2; a connectivity failure whose session restart
succeeds retries the same action without a repair invocation, but it
increments the same shared retry counter (and the counter can therefore
reach 3, ending the loop); a failed restart raises out of the loop. -/
theorem C3_repairs_bounded_and_connectivity_consumes_counter
    (w : Nat → WorldStep) (repair : Nat → BrowserAction → BrowserAction)
    (a : BrowserAction) :
    (runActionLoop w repair 3 0 0 0 a false).repairs ≤ 2 ∧
    (∀ (fuel retries repairs restarts : Nat) (b : BrowserAction) (shot : Bool) (msg : Str),
      attemptAction b (w retries) = StepResult.failure msg false →
      (w retries).restartFails = none →
      runActionLoop w repair (fuel + 1) retries repairs restarts b shot =
        runActionLoop w repair fuel (retries + 1) repairs (restarts + 1) b shot) := by
  constructor
  · exact runActionLoop_repairs_le w repair 3 0 0 0 a false (by omega)
  · intro fuel retries repairs restarts b shot msg hA hrf
    simp only [runActionLoop, hA, Bool.false_eq_true, if_false, hrf]

/-- C7 counterexample: one Hover action (which, unlike a Click, has a live
failure path in the source) fails three times with a disconnected probe and
a successful restart each time; the loop is abandoned without success, yet
the final result still reports success = true. -/
theorem C7_counterexample_success_despite_unfinished_action :
    (execute_actions envC7 [aHover7] ("req-7".toList) 5).success = true ∧
    (runActionLoop (envC7.w 0) (envC7.repair 0) 3 0 0 0 aHover7 false).succeeded = false :=
  ⟨rfl, rfl⟩

/-- C7 (amended): the result reports success = false with the error field
holding the raised message exactly when the pre-loop browser start or
probe reset raised (before any action ran), or when some executed action's
retry loop raised — a logic failure surviving the repair bound of 2, or a
session-restart failure during a connectivity retry — and in each case no
later action runs; otherwise success = true, which covers both the case
that every action succeeded and the case that an action was abandoned
after repeated connectivity failures with successful restarts, so success
does not imply every action reached its succeeded state. -/
theorem C7_success_flag_and_abort_semantics (env : ExecEnv)
    (actions : List BrowserAction) (request_id : Str) (now : Nat) :
    ((execute_actions env actions request_id now).success = true ↔
      (env.preloopFails = none ∧ (execGo env 0 actions false).1 = none)) ∧
    (∀ msg, env.preloopFails = some msg →
      (execute_actions env actions request_id now).success = false ∧
      (execute_actions env actions request_id now).error = some msg ∧
      (execute_actions env actions request_id now).message =
        "Error executing actions".toList) ∧
    (∀ msg, env.preloopFails = none → (execGo env 0 actions false).1 = some msg →
      (execute_actions env actions request_id now).success = false ∧
      (execute_actions env actions request_id now).error = some msg ∧
      (execute_actions env actions request_id now).message =
        "Error executing actions".toList) ∧
    (∀ (i : Nat) (a : BrowserAction) (rest : List BrowserAction) (shot : Bool) (msg : Str),
      (runActionLoop (env.w i) (env.repair i) 3 0 0 0 a false).raised = some msg →
      execGo env i (a :: rest) shot = (some msg, shot)) := by
  refine ⟨?_, ?_, ?_, ?_⟩
  · unfold execute_actions
    cases hP : env.preloopFails with
    | some m =>
      simp [hP]
    | none =>
      simp only [hP]
      rcases hE : execGo env 0 actions false with ⟨o, sh⟩
      cases o <;> simp
  · intro msg hP
    unfold execute_actions
    simp [hP]
  · intro msg hP hmsg
    unfold execute_actions
    simp only [hP]
    rcases hE : execGo env 0 actions false with ⟨o, sh⟩
    rw [hE] at hmsg
    simp only at hmsg
    rw [hmsg]
    simp
  · intro i a rest shot msg hr
    simp only [execGo, hr]

/-- C10: the request id and the completed-at timestamp are written when the
result record is created at the start of `execute_actions` (lines 713-718)
and never reassigned on any path, and the extracted-data field is never
assigned at all; only success, message, error and screenshot change.  The
completed-at field therefore records when execution started. -/
theorem C10_result_identity_fields_never_mutated (env : ExecEnv)
    (actions : List BrowserAction) (request_id : Str) (now : Nat) :
    (execute_actions env actions request_id now).request_id = request_id ∧
    (execute_actions env actions request_id now).completed_at = now ∧
    (execute_actions env actions request_id now).extracted_data = none := by
  unfold execute_actions
  cases env.preloopFails with
  | some m => exact ⟨rfl, rfl, rfl⟩
  | none =>
    rcases execGo env 0 actions false with ⟨o, sh⟩
    cases o <;> exact ⟨rfl, rfl, rfl⟩

/-- C8 counterexample: with every handle held and the page close raising,
`stop_browser` propagates the error and leaves the page, context, browser
and driver handles all still held. -/
theorem C8_counterexample_close_failure_leaks_handles :
    ((stop_browser wC8 fullBrowserState).2).isSome = true ∧
    (stop_browser wC8 fullBrowserState).1.page = true ∧
    (stop_browser wC8 fullBrowserState).1.context = true ∧
    (stop_browser wC8 fullBrowserState).1.browser = true ∧
    (stop_browser wC8 fullBrowserState).1.pw = true := by
  decide

/-- C8 (amended): stopping with no live session succeeds and is idempotent
— it changes nothing and raises nothing, for any close behavior — and a
stop that raises no error has released every handle (after which stopping
again is a no-op); but when an intermediate close step fails, the error
propagates and the remaining handles are not released. -/
theorem C8_stop_idempotent_and_full_release_only_without_failure :
    (∀ w : CloseWorld, stop_browser w emptyBrowserState = (emptyBrowserState, none)) ∧
    (∀ (w w2 : CloseWorld) (s : BrowserState), (stop_browser w s).2 = none →
      (stop_browser w s).1 = emptyBrowserState ∧
      stop_browser w2 (stop_browser w s).1 = (emptyBrowserState, none)) := by
  have hempty : ∀ w : CloseWorld, stop_browser w emptyBrowserState = (emptyBrowserState, none) := by
    intro w
    simp [stop_browser, emptyBrowserState]
  refine ⟨hempty, ?_⟩
  intro w w2 s h
  have h1 : (stop_browser w s).1 = emptyBrowserState := by
    rcases w with ⟨wp, wc, wb, ww⟩
    rcases s with ⟨p, cx, br, pw⟩
    revert h
    cases p <;> cases cx <;> cases br <;> cases pw <;>
      cases wp <;> cases wc <;> cases wb <;> cases ww <;> decide
  exact ⟨h1, by rw [h1]; exact hempty w2⟩

/-- C2 counterexample: the reply `unparsableResponse` has no fenced block,
no bracket pair and is not valid JSON, yet `translate_command` answers with
status `ready`, not the claimed status `error`. -/
theorem C2_counterexample_unparsable_yields_ready_not_error :
    extract_fenced_block unparsableResponse = none ∧
    extract_bracketed unparsableResponse = none ∧
    json_loads (stripWs unparsableResponse) = none ∧
    (translate_command envC2 ("req-2".toList) 0).status = "ready".toList ∧
    ¬((translate_command envC2 ("req-2".toList) 0).status = "error".toList) ∧
    (translate_command envC2 ("req-2".toList) 0).actions = [] := by
  refine ⟨rfl, rfl, rfl, by decide, by decide, by decide⟩

/-- C2 (amended): when the oracle reply to the action-extraction prompt
cannot be parsed (no fenced block, no bracket-delimited text, not valid
JSON), `translate_command` returns a plan with status `ready` — not the
claimed status `error` — an empty action list and a non-empty message, and
no exception escapes the translator boundary (the parse failure is
swallowed at line 566 and the empty list flows into a success response). -/
theorem C2_unparsable_response_yields_ready_empty_plan
    (env : TranslateEnv) (request_id : Str) (now : Nat)
    (hnav : env.navigation_success = true)
    (hc1 : ¬(env.html_content = "No active page".toList))
    (hc2 : startsWith ("Error getting HTML".toList) env.html_content = false)
    (hf : extract_fenced_block env.html_response = none)
    (hb : extract_bracketed env.html_response = none)
    (hj : json_loads (stripWs env.html_response) = none) :
    (translate_command env request_id now).status = "ready".toList ∧
    (translate_command env request_id now).actions = [] ∧
    ¬((translate_command env request_id now).message = []) := by
  unfold translate_command
  rw [if_neg (by rw [hnav]; decide)]
  rw [if_neg (by rw [decide_eq_false hc1, hc2]; decide)]
  have hparse : parse_llm_response env.html_response = Json.arr [] := by
    unfold parse_llm_response
    rw [hf, hb]
    show (match json_loads (stripWs env.html_response) with
      | some v => v
      | none => Json.arr []) = Json.arr []
    rw [hj]
  rw [hparse]
  refine ⟨rfl, rfl, ?_⟩
  show ¬((readyResponse request_id [] now).message = [])
  simp [readyResponse]

/-- C2 witness: a concrete run with a prose reply lands in the amended
behavior. -/
theorem C2_witness_concrete_prose_reply :
    (translate_command envC2w ("req-2w".toList) 3).status = "ready".toList ∧
    (translate_command envC2w ("req-2w".toList) 3).actions = [] ∧
    ¬((translate_command envC2w ("req-2w".toList) 3).message = []) :=
  C2_unparsable_response_yields_ready_empty_plan envC2w ("req-2w".toList) 3
    rfl (by decide) rfl rfl rfl rfl

/-- An entry the conversion loop keeps is never a Navigate action: Navigate
entries are skipped at lines 499-500. -/
theorem entryAction_no_navigate {kvs : List (Str × Json)} {b : BrowserAction}
    (h : entryAction kvs = some b) : ¬(b.action = ActionType.navigate) := by
  unfold entryAction at h
  cases hp : parseActionTypeJson ((jsonGet kvs ("action".toList)).getD (Json.str [])) with
  | none => simp only [hp] at h; cases h
  | some t =>
    simp only [hp] at h
    by_cases ht : t = ActionType.navigate
    · rw [if_pos ht] at h; cases h
    · rw [if_neg ht] at h
      split at h
      · injection h with h
        rw [← h]
        exact ht
      · cases h

/-- No action produced by the conversion loop is a Navigate action. -/
theorem buildActions_no_navigate :
    ∀ (entries : List Json) (acts : List BrowserAction),
      buildActions entries = some acts →
      ∀ a ∈ acts, ¬(a.action = ActionType.navigate) := by
  intro entries
  induction entries with
  | nil =>
    intro acts h a ha
    injection h with h
    rw [← h] at ha
    cases ha
  | cons e rest ih =>
    intro acts h a ha
    cases e with
    | obj kvs =>
      simp only [buildActions] at h
      cases hr : buildActions rest with
      | none => simp only [hr] at h; cases h
      | some acts2 =>
        simp only [hr] at h
        cases hE : entryAction kvs with
        | none =>
          simp only [hE] at h
          injection h with h
          exact ih acts2 hr a (by rw [h]; exact ha)
        | some b =>
          simp only [hE] at h
          injection h with h
          rw [← h] at ha
          rcases List.mem_cons.mp ha with h2 | h2
          · rw [h2]; exact entryAction_no_navigate hE
          · exact ih acts2 hr a h2
    | null => simp [buildActions] at h
    | jbool bb => simp [buildActions] at h
    | num lx => simp [buildActions] at h
    | str sx => simp [buildActions] at h
    | arr xs => simp [buildActions] at h

/-- C6: a plan produced by the Command Translator holds no Navigate action
at all — the Navigate entries of the oracle reply are dropped at lines
499-500, and the initial navigation action built at lines 450-453 is not
appended (line 490 is commented out), so in particular no Navigate follows
the initial one. -/
theorem C6_translated_plan_has_no_navigate (env : TranslateEnv) (request_id : Str)
    (now : Nat) (a : BrowserAction)
    (ha : a ∈ (translate_command env request_id now).actions) :
    ¬(a.action = ActionType.navigate) := by
  unfold translate_command at ha
  by_cases h1 : (!env.navigation_success) = true
  · rw [if_pos h1] at ha
    simp [errorResponse] at ha
  · rw [if_neg h1] at ha
    by_cases h2 : (decide (env.html_content = ("No active page".toList : Str))
        || startsWith ("Error getting HTML".toList) env.html_content) = true
    · rw [if_pos h2] at ha
      simp [errorResponse] at ha
    · rw [if_neg h2] at ha
      cases hp : parse_llm_response env.html_response with
      | arr entries =>
        simp only [hp] at ha
        cases hbuild : buildActions entries with
        | none => simp [hbuild, errorResponse] at ha
        | some acts =>
          simp only [hbuild, readyResponse] at ha
          exact buildActions_no_navigate entries acts hbuild a ha
      | null => simp [hp, errorResponse] at ha
      | jbool bb => simp [hp, errorResponse] at ha
      | num lx => simp [hp, errorResponse] at ha
      | str sx =>
        cases sx with
        | nil => simp [hp, readyResponse] at ha
        | cons c t => simp [hp, errorResponse] at ha
      | obj kvs =>
        cases kvs with
        | nil => simp [hp, readyResponse] at ha
        | cons p t => simp [hp, errorResponse] at ha

set_option maxRecDepth 200000 in
/-- C6 witness: the plan for the reply of `tenv6` keeps the Click entry,
and the theorem applies to it. -/
theorem C6_witness_click_entry_is_not_navigate : ¬(a6.action = ActionType.navigate) :=
  C6_translated_plan_has_no_navigate tenv6 ("req-6".toList) 0 a6 (by decide)

/-!
## Lemmas about the troubleshoot merge
-/

theorem jsonGet_mem {kvs : List (Str × Json)} {k : Str} {v : Json}
    (h : jsonGet kvs k = some v) : (k, v) ∈ kvs := by
  induction kvs with
  | nil => cases h
  | cons p rest ih =>
    rcases p with ⟨k2, v2⟩
    simp only [jsonGet] at h
    cases hr : jsonGet rest k with
    | some v3 =>
      simp only [hr] at h
      injection h with h
      exact List.mem_cons_of_mem _ (ih (by rw [hr, h]))
    | none =>
      simp only [hr] at h
      by_cases hk : k2 = k
      · rw [if_pos hk] at h
        injection h with h
        rw [← hk, ← h]
        exact List.mem_cons_self _ _
      · rw [if_neg hk] at h
        cases h

theorem wf_entry {fixed : List (Str × Json)} (hwf : repairWellFormed fixed = true)
    {k : Str} {v : Json} (hg : jsonGet fixed k = some v) : repairEntryOk (k, v) = true :=
  List.all_eq_true.mp hwf _ (jsonGet_mem hg)

theorem repairActionType_of_none {fixed : List (Str × Json)} {d : ActionType}
    (h : jsonGet fixed ("action".toList) = none) : repairActionType fixed d = some d := by
  simp only [repairActionType, h]

theorem repairActionType_of_some {fixed : List (Str × Json)} {d t : ActionType} {v : Json}
    (h : jsonGet fixed ("action".toList) = some v) (h2 : parseActionTypeJson v = some t) :
    repairActionType fixed d = some t := by
  simp only [repairActionType, h, h2]

theorem repairFieldStr_of_none {fixed : List (Str × Json)} {k : Str} {orig : Option Str}
    (h : jsonGet fixed k = none) : repairFieldStr fixed k orig = some orig := by
  simp only [repairFieldStr, h]

theorem repairFieldStr_of_some {fixed : List (Str × Json)} {k : Str} {orig o : Option Str}
    {v : Json} (h : jsonGet fixed k = some v) (h2 : jsonAsOptStr v = some o) :
    repairFieldStr fixed k orig = some o := by
  simp only [repairFieldStr, h, h2]

theorem repairFieldInt_of_none {fixed : List (Str × Json)} {k : Str} {orig : Option Int}
    (h : jsonGet fixed k = none) : repairFieldInt fixed k orig = some orig := by
  simp only [repairFieldInt, h]

theorem repairFieldInt_of_some {fixed : List (Str × Json)} {k : Str} {orig o : Option Int}
    {v : Json} (h : jsonGet fixed k = some v) (h2 : jsonAsOptInt v = some o) :
    repairFieldInt fixed k orig = some o := by
  simp only [repairFieldInt, h, h2]

/-- With every merged field accepted, the replacement action is the record
of the seven merged values. -/
theorem troubleshoot_merge_eval {fixed : List (Str × Json)} {orig : BrowserAction}
    {t : ActionType} {l u tx k v : Option Str} {tm : Option Int}
    (hne : fixed.isEmpty = false)
    (h1 : repairActionType fixed orig.action = some t)
    (h2 : repairFieldStr fixed ("locator".toList) orig.locator = some l)
    (h3 : repairFieldStr fixed ("url".toList) orig.url = some u)
    (h4 : repairFieldStr fixed ("text".toList) orig.text = some tx)
    (h5 : repairFieldInt fixed ("time_ms".toList) orig.time_ms = some tm)
    (h6 : repairFieldStr fixed ("key".toList) orig.key = some k)
    (h7 : repairFieldStr fixed ("value".toList) orig.value = some v) :
    troubleshoot_merge fixed orig = ⟨t, l, u, tx, tm, k, v⟩ := by
  unfold troubleshoot_merge
  rw [if_neg (by rw [hne]; decide)]
  simp only [h1, h2, h3, h4, h5, h6, h7]

theorem repairFieldStr_isSome (fixed : List (Str × Json)) (k : Str) (orig : Option Str)
    (hwf : repairWellFormed fixed = true)
    (hk : ∀ v : Json, repairEntryOk (k, v) = (jsonAsOptStr v).isSome) :
    (repairFieldStr fixed k orig).isSome = true := by
  cases hg : jsonGet fixed k with
  | none => simp only [repairFieldStr, hg, Option.isSome_some]
  | some v =>
    simp only [repairFieldStr, hg]
    have hw := wf_entry hwf hg
    rw [hk v] at hw
    exact hw

/-- C9: when the troubleshooting response parses to a JSON object whose
supplied values are acceptable to their fields, the replacement action is a
per-field merge: each of action, locator, url, text, time_ms, key and value
takes the oracle value exactly when the response supplies that key, and
keeps the original action value otherwise — so a repair suggestion that
omits a field never erases that field. -/
theorem C9_troubleshoot_merge_is_per_field (fixed : List (Str × Json))
    (orig : BrowserAction) (hne : ¬(fixed = [])) (hwf : repairWellFormed fixed = true) :
    ((jsonGet fixed ("action".toList) = none →
        (troubleshoot_merge fixed orig).action = orig.action) ∧
      (∀ (v : Json) (t : ActionType), jsonGet fixed ("action".toList) = some v →
        parseActionTypeJson v = some t → (troubleshoot_merge fixed orig).action = t)) ∧
    ((jsonGet fixed ("locator".toList) = none →
        (troubleshoot_merge fixed orig).locator = orig.locator) ∧
      (∀ (v : Json) (o : Option Str), jsonGet fixed ("locator".toList) = some v →
        jsonAsOptStr v = some o → (troubleshoot_merge fixed orig).locator = o)) ∧
    ((jsonGet fixed ("url".toList) = none →
        (troubleshoot_merge fixed orig).url = orig.url) ∧
      (∀ (v : Json) (o : Option Str), jsonGet fixed ("url".toList) = some v →
        jsonAsOptStr v = some o → (troubleshoot_merge fixed orig).url = o)) ∧
    ((jsonGet fixed ("text".toList) = none →
        (troubleshoot_merge fixed orig).text = orig.text) ∧
      (∀ (v : Json) (o : Option Str), jsonGet fixed ("text".toList) = some v →
        jsonAsOptStr v = some o → (troubleshoot_merge fixed orig).text = o)) ∧
    ((jsonGet fixed ("time_ms".toList) = none →
        (troubleshoot_merge fixed orig).time_ms = orig.time_ms) ∧
      (∀ (v : Json) (o : Option Int), jsonGet fixed ("time_ms".toList) = some v →
        jsonAsOptInt v = some o → (troubleshoot_merge fixed orig).time_ms = o)) ∧
    ((jsonGet fixed ("key".toList) = none →
        (troubleshoot_merge fixed orig).key = orig.key) ∧
      (∀ (v : Json) (o : Option Str), jsonGet fixed ("key".toList) = some v →
        jsonAsOptStr v = some o → (troubleshoot_merge fixed orig).key = o)) ∧
    ((jsonGet fixed ("value".toList) = none →
        (troubleshoot_merge fixed orig).value = orig.value) ∧
      (∀ (v : Json) (o : Option Str), jsonGet fixed ("value".toList) = some v →
        jsonAsOptStr v = some o → (troubleshoot_merge fixed orig).value = o)) := by
  have hE : fixed.isEmpty = false := by
    cases fixed with
    | nil => exact absurd rfl hne
    | cons p t => rfl
  have hA : (repairActionType fixed orig.action).isSome = true := by
    cases hg : jsonGet fixed ("action".toList) with
    | none => simp only [repairActionType, hg, Option.isSome_some]
    | some v =>
      simp only [repairActionType, hg]
      have hw := wf_entry hwf hg
      rw [show repairEntryOk (("action".toList : Str), v) = (parseActionTypeJson v).isSome
        from rfl] at hw
      exact hw
  have hM : (repairFieldInt fixed ("time_ms".toList) orig.time_ms).isSome = true := by
    cases hg : jsonGet fixed ("time_ms".toList) with
    | none => simp only [repairFieldInt, hg, Option.isSome_some]
    | some v =>
      simp only [repairFieldInt, hg]
      have hw := wf_entry hwf hg
      rw [show repairEntryOk (("time_ms".toList : Str), v) = (jsonAsOptInt v).isSome
        from rfl] at hw
      exact hw
  obtain ⟨t0, ht0⟩ := Option.isSome_iff_exists.mp hA
  obtain ⟨l0, hl0⟩ := Option.isSome_iff_exists.mp
    (repairFieldStr_isSome fixed ("locator".toList) orig.locator hwf fun v => rfl)
  obtain ⟨u0, hu0⟩ := Option.isSome_iff_exists.mp
    (repairFieldStr_isSome fixed ("url".toList) orig.url hwf fun v => rfl)
  obtain ⟨tx0, htx0⟩ := Option.isSome_iff_exists.mp
    (repairFieldStr_isSome fixed ("text".toList) orig.text hwf fun v => rfl)
  obtain ⟨tm0, htm0⟩ := Option.isSome_iff_exists.mp hM
  obtain ⟨k0, hk0⟩ := Option.isSome_iff_exists.mp
    (repairFieldStr_isSome fixed ("key".toList) orig.key hwf fun v => rfl)
  obtain ⟨v0, hv0⟩ := Option.isSome_iff_exists.mp
    (repairFieldStr_isSome fixed ("value".toList) orig.value hwf fun v => rfl)
  have hMerge := troubleshoot_merge_eval hE ht0 hl0 hu0 htx0 htm0 hk0 hv0
  refine ⟨⟨?_, ?_⟩, ⟨?_, ?_⟩, ⟨?_, ?_⟩, ⟨?_, ?_⟩, ⟨?_, ?_⟩, ⟨?_, ?_⟩, ⟨?_, ?_⟩⟩
  · intro hg
    rw [hMerge]
    rw [repairActionType_of_none hg] at ht0
    injection ht0 with h
    exact h.symm
  · intro v t hg hp
    rw [hMerge]
    rw [repairActionType_of_some hg hp] at ht0
    injection ht0 with h
    exact h.symm
  · intro hg
    rw [hMerge]
    rw [repairFieldStr_of_none hg] at hl0
    injection hl0 with h
    exact h.symm
  · intro v o hg ho
    rw [hMerge]
    rw [repairFieldStr_of_some hg ho] at hl0
    injection hl0 with h
    exact h.symm
  · intro hg
    rw [hMerge]
    rw [repairFieldStr_of_none hg] at hu0
    injection hu0 with h
    exact h.symm
  · intro v o hg ho
    rw [hMerge]
    rw [repairFieldStr_of_some hg ho] at hu0
    injection hu0 with h
    exact h.symm
  · intro hg
    rw [hMerge]
    rw [repairFieldStr_of_none hg] at htx0
    injection htx0 with h
    exact h.symm
  · intro v o hg ho
    rw [hMerge]
    rw [repairFieldStr_of_some hg ho] at htx0
    injection htx0 with h
    exact h.symm
  · intro hg
    rw [hMerge]
    rw [repairFieldInt_of_none hg] at htm0
    injection htm0 with h
    exact h.symm
  · intro v o hg ho
    rw [hMerge]
    rw [repairFieldInt_of_some hg ho] at htm0
    injection htm0 with h
    exact h.symm
  · intro hg
    rw [hMerge]
    rw [repairFieldStr_of_none hg] at hk0
    injection hk0 with h
    exact h.symm
  · intro v o hg ho
    rw [hMerge]
    rw [repairFieldStr_of_some hg ho] at hk0
    injection hk0 with h
    exact h.symm
  · intro hg
    rw [hMerge]
    rw [repairFieldStr_of_none hg] at hv0
    injection hv0 with h
    exact h.symm
  · intro v o hg ho
    rw [hMerge]
    rw [repairFieldStr_of_some hg ho] at hv0
    injection hv0 with h
    exact h.symm

/-- C9 witness: merging the concrete repair object `fx9` into `orig9` takes
the supplied locator, takes the supplied null for text, and keeps the
omitted value and action fields. -/
theorem C9_witness_concrete_merge :
    (troubleshoot_merge fx9 orig9).locator = some ("#new-btn".toList) ∧
    (troubleshoot_merge fx9 orig9).text = none ∧
    (troubleshoot_merge fx9 orig9).value = some ("x".toList) ∧
    (troubleshoot_merge fx9 orig9).action = ActionType.fill := by
  have H := C9_troubleshoot_merge_is_per_field fx9 orig9
    (by unfold fx9; exact List.cons_ne_nil _ _) rfl
  exact ⟨H.2.1.2 _ _ rfl rfl, H.2.2.2.1.2 _ _ rfl rfl,
    H.2.2.2.2.2.2.1 rfl, H.1.1 rfl⟩

/-- C4 counterexample: on a page of 15001 letters the cleaned content passes
through unchanged, no form, main or article section exists, and the embedded
prompt content is the hard truncation plus the marker — 15015 characters,
exceeding the claimed 15000-character bound. -/
theorem C4_counterexample_embedded_content_exceeds_cap :
    max_html_length < (prompt_html_content (List.replicate 15001 'a')).length := by
  have hmem : ∀ c ∈ List.replicate 15001 'a', c = 'a' := fun c hc =>
    (List.mem_replicate.mp hc).2
  have h1 : '<' ∉ List.replicate 15001 'a' := fun hc => absurd (hmem _ hc) (by decide)
  have h2 : '"' ∉ List.replicate 15001 'a' := fun hc => absurd (hmem _ hc) (by decide)
  have h3 : ∀ c ∈ List.replicate 15001 'a', isSpaceChar c = false := fun c hc => by
    rw [hmem c hc]; rfl
  have hclean := clean_html_content_id_plain h1 h2 h3
  have hparts := important_parts_eq_nil h1
  have hlen : (List.replicate 15001 'a').length = 15001 := List.length_replicate _ _
  unfold prompt_html_content
  rw [hclean]
  simp only [truncate_html_content]
  rw [if_pos (by rw [hlen]; decide), hparts]
  rw [if_pos (rfl : ([] : List Str) = [])]
  rw [if_pos (by rw [hlen]; decide)]
  have hescmem : ∀ c ∈ (List.replicate 15001 'a').take max_html_length ++ truncation_marker,
      ¬(c = obrace) ∧ ¬(c = cbrace) := by
    intro c hc
    rcases List.mem_append.mp hc with hc1 | hc1
    · rw [hmem c (List.take_subset _ _ hc1)]
      exact ⟨by decide, by decide⟩
    · exact (by decide : ∀ d ∈ truncation_marker, ¬(d = obrace) ∧ ¬(d = cbrace)) c hc1
  rw [escape_braces_id hescmem]
  have h15 : max_html_length = 15000 := rfl
  have hm : truncation_marker.length = 15 := rfl
  rw [List.length_append, List.length_take, hlen, hm, h15]
  norm_num

/-- C4 (amended): the capped content is bounded by the cap plus the length
of the truncation marker (15015 characters), not by the cap itself; under
the cap the content passes through unchanged; over the cap the form, main
and article sections — in that priority order — replace the content when
any exist, and hard truncation with the marker applies only when no such
section exists or the extraction still exceeds the cap.  The brace escaping
applied before embedding can at most double the length. -/
theorem C4_capped_content_bounds_and_section_priority (content : Str) :
    (truncate_html_content content).length ≤ max_html_length + truncation_marker.length ∧
    (content.length ≤ max_html_length → truncate_html_content content = content) ∧
    (max_html_length < content.length → ¬(important_parts content = []) →
      truncate_html_content content =
        (if (important_parts content).flatten.length > max_html_length then
          (important_parts content).flatten.take max_html_length ++ truncation_marker
        else (important_parts content).flatten)) ∧
    (max_html_length < content.length → important_parts content = [] →
      truncate_html_content content = content.take max_html_length ++ truncation_marker) ∧
    (escape_braces content).length ≤ 2 * content.length := by
  have h15 : max_html_length = 15000 := rfl
  have hm : truncation_marker.length = 15 := rfl
  refine ⟨?_, ?_, ?_, ?_, escape_braces_length_le content⟩
  · simp only [truncate_html_content]
    by_cases hlen : content.length > max_html_length
    · rw [if_pos hlen]
      by_cases hp : important_parts content = []
      · rw [if_pos hp]
        by_cases h2 : content.length > max_html_length
        · rw [if_pos h2]
          rw [List.length_append, List.length_take, hm, h15]
          omega
        · rw [if_neg h2]
          omega
      · rw [if_neg hp]
        by_cases h2 : (important_parts content).flatten.length > max_html_length
        · rw [if_pos h2]
          rw [List.length_append, List.length_take, hm, h15]
          omega
        · rw [if_neg h2]
          omega
    · rw [if_neg hlen]
      omega
  · intro h
    simp only [truncate_html_content]
    rw [if_neg (show ¬(content.length > max_html_length) by omega)]
  · intro h hp
    simp only [truncate_html_content]
    rw [if_pos h, if_neg hp]
  · intro h hp
    simp only [truncate_html_content]
    rw [if_pos h, if_pos hp, if_pos h]

set_option maxRecDepth 40000 in
/-- C5 counterexample: removing script blocks is a single left-to-right
pass, so on this nested markup one application leaves a script tag that a
second application removes — sanitizing twice differs from sanitizing
once. -/
theorem C5_counterexample_sanitize_not_idempotent :
    ¬(clean_html_content (clean_html_content
        ("<scr<script>a</script>ipt>b</script>".toList)) =
      clean_html_content ("<scr<script>a</script>ipt>b</script>".toList)) := by
  decide

/-- C5 (amended): the sanitization pipeline is not idempotent on arbitrary
markup; it is idempotent on every input that contains no tag opening and no
double quote, where it reduces to the whitespace collapse. -/
theorem C5_sanitize_idempotent_on_markup_free (s : Str)
    (h1 : '<' ∉ s) (h2 : '"' ∉ s) :
    clean_html_content (clean_html_content s) = clean_html_content s := by
  rw [clean_html_content_eq_collapse h1 h2]
  have hc1 : '<' ∉ collapse_whitespace s := fun hc => by
    rcases mem_collapse_whitespace hc with h3 | h3
    · exact h1 h3
    · exact absurd h3 (by decide)
  have hc2 : '"' ∉ collapse_whitespace s := fun hc => by
    rcases mem_collapse_whitespace hc with h3 | h3
    · exact h2 h3
    · exact absurd h3 (by decide)
  rw [clean_html_content_eq_collapse hc1 hc2, collapse_whitespace_idem]

/-- C5 witness: a concrete markup-free text with a whitespace run. -/
theorem C5_witness_concrete_idempotence :
    clean_html_content (clean_html_content ("a  b".toList)) =
      clean_html_content ("a  b".toList) :=
  C5_sanitize_idempotent_on_markup_free ("a  b".toList) (by decide) (by decide)

end GlitchAgent
